import Mathlib

set_option maxRecDepth 4000

/-!
Verification of the purchasing-workflow-automation pipeline core.

The Python source is shallowly embedded:
* calendar dates are day numbers (days since 0000-03-01, proleptic Gregorian),
  with `daysFromCivil` / `civilFromDays` the standard civil-calendar
  conversions; Python `datetime` only represents years 1..9999, so the
  embedding of date arithmetic returns an error (`OverflowError`) outside
  that range, exactly as `datetime` does;
* Python floats are modelled as exact rationals (`pyFloat` parses the
  decimal literals that occur in stock CSVs; exponent/inf/nan literals are
  outside the model);
* CSV rows are ordered association lists of string cells, matching
  `csv.DictReader` output (insertion-ordered dicts);
* fallible Python code (uncaught `ValueError` / `OverflowError`) is
  embedded with `Except String`.
-/

namespace PurchasingWorkflow

/-! ## Calendar model (Python `datetime`, proleptic Gregorian, years 1..9999) -/

def isLeap (y : Nat) : Bool :=
  y % 4 == 0 && (y % 100 != 0 || y % 400 == 0)

def monthLen (y m : Nat) : Nat :=
  if m = 2 then (if isLeap y then 29 else 28)
  else if m = 4 ∨ m = 6 ∨ m = 9 ∨ m = 11 then 30
  else 31

/-- Day number of a civil date, counted from 0000-03-01 (so all values for
years ≥ 1 are natural numbers).  Standard era-based civil-calendar
conversion. -/
def daysFromCivil (y m d : Nat) : Nat :=
  let y' := if m ≤ 2 then y - 1 else y
  let era := y' / 400
  let yoe := y' % 400
  let mp := if m > 2 then m - 3 else m + 9
  let doy := (153 * mp + 2) / 5 + d - 1
  let doe := yoe * 365 + yoe / 4 - yoe / 100 + doy
  era * 146097 + doe

/-- Inverse of `daysFromCivil`: day number to (year, month, day). -/
def civilFromDays (z : Nat) : Nat × Nat × Nat :=
  let era := z / 146097
  let doe := z % 146097
  let yoe := (doe - doe / 1460 + doe / 36524 - doe / 146096) / 365
  let y0 := yoe + era * 400
  let doy := doe - (365 * yoe + yoe / 4 - yoe / 100)
  let mp := (5 * doy + 2) / 153
  let d := doy - (153 * mp + 2) / 5 + 1
  let m := if mp < 10 then mp + 3 else mp - 9
  (if m ≤ 2 then y0 + 1 else y0, m, d)

/-- Smallest day number Python `datetime` can represent (0001-01-01). -/
def minDay : Nat := daysFromCivil 1 1 1

/-- Largest day number Python `datetime` can represent (9999-12-31). -/
def maxDay : Nat := daysFromCivil 9999 12 31

def pad2 (n : Nat) : String :=
  if n < 10 then "0" ++ toString n else toString n

/-- `datetime.strftime("%Y-%m-%d")` (glibc: the year is not zero-padded). -/
def formatDate (z : Nat) : String :=
  let c := civilFromDays z
  toString c.1 ++ "-" ++ pad2 c.2.1 ++ "-" ++ pad2 c.2.2

/-! ### `strptime("%Y-%m-%d …")` as used by `_parse_date`

`%Y` matches exactly four digits; `%m` matches `1[0-2]|0[1-9]|[1-9]`;
`%d` matches `3[01]|[12]\d|0[1-9]|[1-9]`; `datetime` then validates the
calendar (day within month length, year ≥ 1). -/

def digitVal (c : Char) : Nat := c.toNat - '0'.toNat

/-- Python whitespace (`str.strip()` / regex `\s`, ASCII range). -/
def isPyWs (c : Char) : Bool :=
  c = ' ' ∨ c = '\t' ∨ c = '\n' ∨ c = '\r' ∨ c.toNat = 0xb ∨ c.toNat = 0xc

def stripChars (l : List Char) : List Char :=
  ((l.dropWhile isPyWs).reverse.dropWhile isPyWs).reverse

/-- Python `str.strip()`. -/
def pyStrip (s : String) : String := String.mk (stripChars s.data)

/-- Parse a 1-or-2-digit field per the strptime regexes above: a two-digit
run must itself be a valid value (no one-digit backtracking is possible
because the following literal is never a digit). -/
def parseTwoOrOne (lo hi : Nat) : List Char → Option (Nat × List Char)
  | a :: b :: rest =>
    if a.isDigit && b.isDigit then
      if lo ≤ 10 * digitVal a + digitVal b ∧ 10 * digitVal a + digitVal b ≤ hi then
        some (10 * digitVal a + digitVal b, rest)
      else none
    else if a.isDigit then
      if 1 ≤ digitVal a then some (digitVal a, b :: rest) else none
    else none
  | [a] =>
    if a.isDigit then
      if 1 ≤ digitVal a then some (digitVal a, []) else none
    else none
  | [] => none

/-- The year denoted by four digit characters. -/
def yearVal (y1 y2 y3 y4 : Char) : Nat :=
  1000 * digitVal y1 + 100 * digitVal y2 + 10 * digitVal y3 + digitVal y4

/-- `_parse_date` from `services/item_grouping.py`: strip, parse
`%Y-%m-%d` strictly, validate the calendar; result is the day number.
`none` models the uncaught `ValueError`. -/
def parseDateDays (s : String) : Option Nat :=
  match stripChars s.data with
  | y1 :: y2 :: y3 :: y4 :: '-' :: rest =>
    if y1.isDigit && y2.isDigit && y3.isDigit && y4.isDigit then
      if yearVal y1 y2 y3 y4 = 0 then none
      else
        match parseTwoOrOne 1 12 rest with
        | some (m, '-' :: rest2) =>
          match parseTwoOrOne 1 31 rest2 with
          | some (d, []) =>
            if d ≤ monthLen (yearVal y1 y2 y3 y4) m then
              some (daysFromCivil (yearVal y1 y2 y3 y4) m d)
            else none
          | _ => none
        | _ => none
    else none
  | _ => none

/-! ## Python value helpers -/

/-- Python `float(x)` on an optional string cell: `none` input is
`TypeError`, an unparseable string is `ValueError`; both give `none`.
Models sign + decimal digits with an optional fractional part (the literal
forms appearing in stock CSVs). -/
def pyFloatCore : List Char → Option ℚ
  | l =>
    let (neg, l1) :=
      match l with
      | '-' :: t => (true, t)
      | '+' :: t => (false, t)
      | t => (false, t)
    let intPart := l1.takeWhile Char.isDigit
    let rest := l1.dropWhile Char.isDigit
    let (fracPart, rest2) :=
      match rest with
      | '.' :: t => (t.takeWhile Char.isDigit, t.dropWhile Char.isDigit)
      | t => ([], t)
    if rest2 = [] ∧ (intPart ≠ [] ∨ fracPart ≠ []) then
      let iv : ℚ := (intPart.foldl (fun a c => 10 * a + digitVal c) 0 : Nat)
      let fv : ℚ := (fracPart.foldl (fun a c => 10 * a + digitVal c) 0 : Nat)
      let den : ℚ := ((10 : Nat) ^ fracPart.length : Nat)
      let v := if fracPart = [] then iv else iv + fv / den
      some (if neg then -v else v)
    else none

def pyFloat (s : String) : Option ℚ := pyFloatCore (stripChars s.data)

def pyFloatOpt (cell : Option String) : Option ℚ := cell.bind pyFloat

/-- Python truthiness of an optional string (None and "" are falsy). -/
def truthy : Option String → Bool
  | none => false
  | some s => s ≠ ""

/-- Python `a or b` on optional string values. -/
def pyOr (a b : Option String) : Option String :=
  if truthy a then a else b

/-! ## Replenishment calculator (`services/item_grouping.py`) -/

def IMPORT_LEAD_WEEKS : ℚ := 16
def INTERNAL_LEAD_WEEKS : ℚ := 2
def TOTAL_LEAD_WEEKS : ℚ := IMPORT_LEAD_WEEKS + INTERNAL_LEAD_WEEKS
def COVERAGE_WEEKS_AFTER_DELIVERY : ℚ := 26

/-- Python `round` for the label text.  The argument is always a multiple
of 1/7 here, so the half-to-even tie rule of Python `round` never fires
and round-half-up is exact. -/
def pyRound (q : ℚ) : ℤ := ⌊q + 1 / 2⌋

/-- `_build_timing_label_from_weeks`. -/
def buildTimingLabelFromWeeks (w : ℚ) : String :=
  if w ≤ 1 / 2 then "immediately"
  else if w ≤ 1 then "within 1 week"
  else if w ≤ 2 then "within 2 weeks"
  else if w ≤ 4 then "within 2–4 weeks"
  else if w ≤ 8 then "within 4–8 weeks"
  else
    let r := pyRound w
    s!"within {r} weeks"

structure RecOut where
  recommended_latest_po_date : String
  recommended_latest_delivery_date : String
  recommended_latest_po_timing : String
  recommended_latest_delivery_timing : String
  deriving Repr, DecidableEq

/-- `_add_days`: `datetime + timedelta(days=k)`; raises `OverflowError`
when the result leaves years 1..9999. -/
def addDays (z : Nat) (k : ℤ) : Except String Nat :=
  let r : ℤ := (z : ℤ) + k
  if (minDay : ℤ) ≤ r ∧ r ≤ (maxDay : ℤ) then .ok r.toNat
  else .error "OverflowError: date value out of range"

/-- The `try float(...) except: TOTAL_LEAD_WEEKS` / `wks if wks > 0 else
TOTAL_LEAD_WEEKS` prologue of `build_recommendations_for_item`. -/
def effWksOf (wksRaw : Option String) : ℚ :=
  match pyFloatOpt wksRaw with
  | some w => if w > 0 then w else TOTAL_LEAD_WEEKS
  | none => TOTAL_LEAD_WEEKS

/-- `build_recommendations_for_item`: recommended latest PO/delivery
dates and timing labels for one item.  `wksRaw` is the raw CSV cell
(`none` = the field was absent). -/
def buildRecommendationsForItem (snapshotDateStr : String) (wksRaw : Option String) :
    Except String RecOut :=
  match parseDateDays snapshotDateStr with
  | none => .error "ValueError: snapshot_date is missing or invalid"
  | some snap =>
    -- latest_delivery_date = snapshot + int(effective_wks * 7) days
    match addDays snap ⌊effWksOf wksRaw * 7⌋ with
    | .error e => .error e
    | .ok latestDelivery =>
      -- latest_po_date = latest_delivery − 18*7 days (datetime raises before the clamp)
      match addDays latestDelivery (-(18 * 7)) with
      | .error e => .error e
      | .ok latestPo0 =>
        let latestPo := if latestPo0 < snap then snap else latestPo0
        let weeksUntilPo : ℚ := ((latestPo : ℚ) - (snap : ℚ)) / 7
        let weeksUntilDelivery : ℚ := ((latestDelivery : ℚ) - (snap : ℚ)) / 7
        .ok {
          recommended_latest_po_date := formatDate latestPo
          recommended_latest_delivery_date := formatDate latestDelivery
          recommended_latest_po_timing := buildTimingLabelFromWeeks weeksUntilPo
          recommended_latest_delivery_timing := buildTimingLabelFromWeeks weeksUntilDelivery
        }

/-- `compute_suggested_quantity_at_latest_delivery`.  Raw CSV cells in,
`none` out when either value is missing/unparseable or non-positive;
`int(q) + (1 if q % 1 else 0)` is the ceiling for positive `q`. -/
def computeSuggestedQuantityAtLatestDelivery (currentStockRaw wksRaw : Option String) :
    Option ℤ :=
  match pyFloatOpt currentStockRaw, pyFloatOpt wksRaw with
  | some stock, some wks =>
    if stock > 0 ∧ wks > 0 then
      let weeklyDemand := stock / wks
      let target := weeklyDemand * COVERAGE_WEEKS_AFTER_DELIVERY
      if target ≤ 0 then some 0
      else some (⌊target⌋ + if target = (⌊target⌋ : ℚ) then 0 else 1)
    else none
  | _, _ => none

/-! ## CSV rows and `find_field` (`utils/csv_utils.py`)

A row is the insertion-ordered association list produced by
`csv.DictReader` (all cells are strings); `find_field` returns the value
of the first key matching after normalization. -/

abbrev Row := List (String × String)

/-- `_normalize_key`: drop BOM, spaces and underscores, lowercase. -/
def normalizeKey (k : String) : String :=
  String.mk ((k.data.filter fun c => c.toNat ≠ 0xFEFF ∧ c ≠ ' ' ∧ c ≠ '_').map Char.toLower)

/-- `find_field`. -/
def findField (row : Row) (target : String) : Option String :=
  (row.find? fun kv => normalizeKey kv.1 = normalizeKey target).map Prod.snd

/-! ## Supplier grouping (`group_by_supplier_and_recommend`) -/

structure ItemRecord where
  item_code : String
  item_name : String
  risk_level : String
  current_stock : Option ℚ
  wks_to_oos : Option ℚ
  suggested_quantity : Option ℤ
  recommended_latest_po_date : String
  recommended_latest_delivery_date : String
  recommended_latest_po_timing : String
  recommended_latest_delivery_timing : String
  deriving Repr, DecidableEq

structure SupplierGroup where
  snapshot_date : String
  supplier : String
  items : List ItemRecord
  deriving Repr, DecidableEq

/-- The four leading field extractions of the grouping loop
(lines 105-111 of `item_grouping.py`). -/
def rowSnapshot (row : Row) : String :=
  match pyOr (findField row "snapshotdate") (findField row "snapshot_date") with
  | some s => if s = "" then "" else pyStrip s
  | none => ""

def rowSupplier (row : Row) : String :=
  match pyOr (findField row "suppliername") (findField row "supplier") with
  | some s => if s = "" then "" else pyStrip s
  | none => ""

def rowRiskLevel (row : Row) : String :=
  match pyOr (findField row "risklevel") (findField row "risk_level") with
  | some s => if s = "" then "" else pyStrip s
  | none => ""

def rowItemCode (row : Row) : Option String := findField row "itemcode"

def rowItemName (row : Row) : Option String :=
  pyOr (findField row "itemname") (findField row "item_name")

def rowCurrentStockRaw (row : Row) : Option String :=
  pyOr (findField row "currentstock") (findField row "current_stock")

def rowWksToOosRaw (row : Row) : Option String :=
  pyOr (findField row "wkstooos") (findField row "wks_to_oos")

/-- Guard of line 113: rows with a missing mandatory field are skipped. -/
def rowKept (row : Row) : Bool :=
  ¬(rowSnapshot row = "" ∨ rowSupplier row = "" ∨
    rowItemCode row = none ∨ rowItemName row = none)

/-- `float(raw) if raw is not None else None` (an unparseable present cell
raises an uncaught `ValueError`). -/
def pyFloatOrNone (cell : Option String) : Except String (Option ℚ) :=
  match cell with
  | none => .ok none
  | some s =>
    match pyFloat s with
    | some q => .ok (some q)
    | none => .error "ValueError: could not convert string to float"

/-- Body of the grouping loop for a kept row: build the recommendation
and the flattened item record (lines 116-130). -/
def mkItemRecord (row : Row) : Except String ItemRecord := do
  let rec ← buildRecommendationsForItem (rowSnapshot row) (rowWksToOosRaw row)
  let qty := computeSuggestedQuantityAtLatestDelivery (rowCurrentStockRaw row) (rowWksToOosRaw row)
  let stock ← pyFloatOrNone (rowCurrentStockRaw row)
  let wks ← pyFloatOrNone (rowWksToOosRaw row)
  pure {
    item_code := (rowItemCode row).getD ""
    item_name := (rowItemName row).getD ""
    risk_level := if rowRiskLevel row = "" then "N/A" else rowRiskLevel row
    current_stock := stock
    wks_to_oos := wks
    suggested_quantity := qty
    recommended_latest_po_date := rec.recommended_latest_po_date
    recommended_latest_delivery_date := rec.recommended_latest_delivery_date
    recommended_latest_po_timing := rec.recommended_latest_po_timing
    recommended_latest_delivery_timing := rec.recommended_latest_delivery_timing
  }

/-- Python `groups[supplier]` dict update: append the item to the
existing group (keys keep their insertion position) or append a fresh
group keyed by this row's snapshot date. -/
def insertItem (groups : List SupplierGroup) (snapshot supplier : String)
    (item : ItemRecord) : List SupplierGroup :=
  if groups.any fun g => g.supplier = supplier then
    groups.map fun g =>
      if g.supplier = supplier then { g with items := g.items ++ [item] } else g
  else
    groups ++ [{ snapshot_date := snapshot, supplier := supplier, items := [item] }]

/-- The grouping loop with its accumulator (`groups` dict in insertion
order). -/
def groupGo : List SupplierGroup → List Row → Except String (List SupplierGroup)
  | acc, [] => .ok acc
  | acc, row :: rest =>
    if rowKept row then
      match mkItemRecord row with
      | .error e => .error e
      | .ok item => groupGo (insertItem acc (rowSnapshot row) (rowSupplier row) item) rest
    else groupGo acc rest

/-- `group_by_supplier_and_recommend`. -/
def groupBySupplierAndRecommend (rows : List Row) : Except String (List SupplierGroup) :=
  groupGo [] rows

/-! ## Snapshot date from filename and `parse_csv_rows` (`utils/csv_utils.py`) -/

/-- Six digit characters at the head of the list, if present. -/
def sixDigitsHere : List Char → Option (Char × Char × Char × Char × Char × Char)
  | d1 :: d2 :: d3 :: d4 :: d5 :: d6 :: _ =>
    if d1.isDigit && d2.isDigit && d3.isDigit && d4.isDigit && d5.isDigit && d6.isDigit then
      some (d1, d2, d3, d4, d5, d6)
    else none
  | _ => none

/-- Leftmost match of the regex `(\d{2})(\d{2})(\d{2})`: the first six
consecutive digit characters, scanning left to right. -/
def findSixDigits : List Char → Option (Char × Char × Char × Char × Char × Char)
  | [] => none
  | c :: rest =>
    match sixDigitsHere (c :: rest) with
    | some t => some t
    | none => findSixDigits rest

def twoDigitVal (a b : Char) : Nat := 10 * digitVal a + digitVal b

/-- `str(int(mm)).zfill(2)`: strip the leading zero and pad back to two. -/
def zfill2OfVal (v : Nat) : String := if v < 10 then "0" ++ toString v else toString v

/-- `snapshot_date_from_filename`: DDMMYY anywhere in the filename,
formatted `YYYY-MM-DD` with year `2000+YY`, with no calendar validation. -/
def snapshotDateFromFilename (fileName : String) : Option String :=
  match findSixDigits fileName.data with
  | none => none
  | some (d1, d2, d3, d4, d5, d6) =>
    let year := 2000 + twoDigitVal d5 d6
    let month := zfill2OfVal (twoDigitVal d3 d4)
    let day := zfill2OfVal (twoDigitVal d1 d2)
    some s!"{year}-{month}-{day}"

/-- Python `r[k] = v` on an insertion-ordered dict: overwrite in place if
the exact key is present, else append. -/
def setKey (row : Row) (k v : String) : Row :=
  if row.any fun kv => kv.1 = k then
    row.map fun kv => if kv.1 = k then (k, v) else kv
  else row ++ [(k, v)]

/-- The snapshot-date cell of a row as `parse_csv_rows` reads it:
`find_field(row, "snapshotdate") or find_field(row, "snapshot_date")`. -/
def rowSnapCell (row : Row) : Option String :=
  pyOr (findField row "snapshotdate") (findField row "snapshot_date")

/-- The per-row body of `parse_csv_rows`, threading the mutable
`snapshot_date` variable (`none` = Python `None`). -/
def parseCsvRowsGo : Option String → List Row → List Row
  | _, [] => []
  | state, row :: rest =>
    let snap := pyOr state (rowSnapCell row)
    let state' :=
      if truthy snap then
        match state with
        | none => some (pyStrip (snap.getD ""))
        | some s => some s
      else state
    let r :=
      match state' with
      | some s => if s ≠ "" then setKey row "snapshot_date" s else row
      | none => row
    r :: parseCsvRowsGo state' rest

/-- `parse_csv_rows`, over rows already decoded by `csv.DictReader`
(raw CSV-to-row decoding is an external collaborator). -/
def parseCsvRows (rows : List Row) (csvFilename : Option String) : List Row :=
  let snapshot0 :=
    match csvFilename with
    | some fn => if fn ≠ "" then snapshotDateFromFilename fn else none
    | none => none
  parseCsvRowsGo snapshot0 rows

/-! ## JSON values (Python dict/list values and the `json` module)

`Json` models the Python objects produced by `json.loads` and consumed
with `.get`.  `jsonParse` models `json.loads` on the JSON subset without
string escapes and exponent literals (none of which occur in any claim);
an `.error` is a raised `json.JSONDecodeError`. -/

inductive Json where
  | null : Json
  | bool (b : Bool) : Json
  | num (q : ℚ) : Json
  | str (s : String) : Json
  | arr (elems : List Json) : Json
  | obj (members : List (String × Json)) : Json
  deriving Repr

mutual

def Json.beq : Json → Json → Bool
  | .null, .null => true
  | .bool a, .bool b => a == b
  | .num a, .num b => a == b
  | .str a, .str b => a == b
  | .arr a, .arr b => Json.beqList a b
  | .obj a, .obj b => Json.beqMembers a b
  | _, _ => false

def Json.beqList : List Json → List Json → Bool
  | [], [] => true
  | a :: as, b :: bs => Json.beq a b && Json.beqList as bs
  | _, _ => false

def Json.beqMembers : List (String × Json) → List (String × Json) → Bool
  | [], [] => true
  | (k1, v1) :: as, (k2, v2) :: bs => k1 == k2 && Json.beq v1 v2 && Json.beqMembers as bs
  | _, _ => false

end

mutual

theorem Json.beq_refl : ∀ j : Json, Json.beq j j = true
  | .null => rfl
  | .bool b => by simp [Json.beq]
  | .num q => by simp [Json.beq]
  | .str s => by simp [Json.beq]
  | .arr l => by simp [Json.beq, Json.beqList_refl l]
  | .obj l => by simp [Json.beq, Json.beqMembers_refl l]

theorem Json.beqList_refl : ∀ l : List Json, Json.beqList l l = true
  | [] => rfl
  | a :: as => by simp [Json.beqList, Json.beq_refl a, Json.beqList_refl as]

theorem Json.beqMembers_refl : ∀ l : List (String × Json), Json.beqMembers l l = true
  | [] => rfl
  | (k, v) :: as => by simp [Json.beqMembers, Json.beq_refl v, Json.beqMembers_refl as]

end

mutual

theorem Json.eq_of_beq : ∀ {a b : Json}, Json.beq a b = true → a = b
  | .null, .null, _ => rfl
  | .bool x, .bool y, h => by simpa [Json.beq] using congrArg Json.bool (by simpa [Json.beq] using h)
  | .num x, .num y, h => by
    have : x = y := by simpa [Json.beq] using h
    exact this ▸ rfl
  | .str x, .str y, h => by
    have : x = y := by simpa [Json.beq] using h
    exact this ▸ rfl
  | .arr x, .arr y, h => by
    have : x = y := Json.eqList_of_beq (by simpa [Json.beq] using h)
    exact this ▸ rfl
  | .obj x, .obj y, h => by
    have : x = y := Json.eqMembers_of_beq (by simpa [Json.beq] using h)
    exact this ▸ rfl

theorem Json.eqList_of_beq : ∀ {a b : List Json}, Json.beqList a b = true → a = b
  | [], [], _ => rfl
  | x :: xs, y :: ys, h => by
    have h1 : Json.beq x y = true ∧ Json.beqList xs ys = true := by
      simpa [Json.beqList, Bool.and_eq_true] using h
    have := Json.eq_of_beq h1.1
    have := Json.eqList_of_beq h1.2
    simp_all

theorem Json.eqMembers_of_beq :
    ∀ {a b : List (String × Json)}, Json.beqMembers a b = true → a = b
  | [], [], _ => rfl
  | (k1, v1) :: xs, (k2, v2) :: ys, h => by
    have h1 : (k1 == k2 && Json.beq v1 v2) = true ∧ Json.beqMembers xs ys = true := by
      simpa [Json.beqMembers, Bool.and_eq_true] using h
    have hk : k1 = k2 := by
      have := h1.1
      simp [Bool.and_eq_true] at this
      exact this.1
    have hv : v1 = v2 := by
      have := h1.1
      simp [Bool.and_eq_true] at this
      exact Json.eq_of_beq this.2
    have := Json.eqMembers_of_beq h1.2
    simp_all

end

instance : DecidableEq Json := fun a b =>
  if h : Json.beq a b = true then .isTrue (Json.eq_of_beq h)
  else .isFalse fun he => h (he ▸ Json.beq_refl a)

/-- Python `dict.get(key)` on a JSON object (`none` for non-objects or a
missing key; first binding wins, as in a Python dict there is at most
one). -/
def Json.get? : Json → String → Option Json
  | .obj members, k => (members.find? fun kv => kv.1 = k).map Prod.snd
  | _, _ => none

/-! ### `json.loads` on the modelled subset -/

def isJsonWs (c : Char) : Bool := c = ' ' ∨ c = '\t' ∨ c = '\n' ∨ c = '\r'

def skipWs (l : List Char) : List Char := l.dropWhile isJsonWs

/-- JSON string literal body after the opening quote; no escapes in the
modelled subset. -/
def parseStringBody : List Char → Option (String × List Char)
  | [] => none
  | '"' :: rest => some ("", rest)
  | '\\' :: _ => none
  | c :: rest =>
    match parseStringBody rest with
    | some (s, r) => some (String.mk (c :: s.data), r)
    | none => none

/-- JSON number: `-?(0|[1-9][0-9]*)(\.[0-9]+)?` (no exponent in the
modelled subset). -/
def parseNumber (l : List Char) : Option (ℚ × List Char) :=
  let (neg, l1) :=
    match l with
    | '-' :: t => (true, t)
    | t => (false, t)
  match l1 with
  | c :: rest =>
    if ¬ c.isDigit then none
    else
      let (intDigits, rest2) :=
        if c = '0' then ([c], rest)
        else (c :: rest.takeWhile Char.isDigit, rest.dropWhile Char.isDigit)
      let (fracDigits, rest3) :=
        match rest2 with
        | '.' :: t =>
          if (t.takeWhile Char.isDigit) = ([] : List Char) then ([], '.' :: t)
          else (t.takeWhile Char.isDigit, t.dropWhile Char.isDigit)
        | t => ([], t)
      match rest2, fracDigits with
      | '.' :: _, [] => none
      | _, _ =>
        let iv : ℚ := (intDigits.foldl (fun a c => 10 * a + digitVal c) 0 : Nat)
        let fv : ℚ := (fracDigits.foldl (fun a c => 10 * a + digitVal c) 0 : Nat)
        let den : ℚ := ((10 : Nat) ^ fracDigits.length : Nat)
        let v := if fracDigits = [] then iv else iv + fv / den
        some (if neg then -v else v, rest3)
  | [] => none

mutual

def parseValue : Nat → List Char → Option (Json × List Char)
  | 0, _ => none
  | fuel + 1, l =>
    match skipWs l with
    | '{' :: rest =>
      match skipWs rest with
      | '}' :: r => some (.obj [], r)
      | r => (parseMembers fuel r).map fun (ms, r2) => (.obj ms, r2)
    | '[' :: rest =>
      match skipWs rest with
      | ']' :: r => some (.arr [], r)
      | r => (parseElems fuel r).map fun (es, r2) => (.arr es, r2)
    | '"' :: rest => (parseStringBody rest).map fun (s, r) => (.str s, r)
    | 't' :: 'r' :: 'u' :: 'e' :: rest => some (.bool true, rest)
    | 'f' :: 'a' :: 'l' :: 's' :: 'e' :: rest => some (.bool false, rest)
    | 'n' :: 'u' :: 'l' :: 'l' :: rest => some (.null, rest)
    | l' => (parseNumber l').map fun (q, r) => (.num q, r)

def parseElems : Nat → List Char → Option (List Json × List Char)
  | 0, _ => none
  | fuel + 1, l =>
    match parseValue fuel l with
    | none => none
    | some (v, rest) =>
      match skipWs rest with
      | ',' :: r =>
        (parseElems fuel r).map fun (es, r2) => (v :: es, r2)
      | ']' :: r => some ([v], r)
      | _ => none

def parseMembers : Nat → List Char → Option (List (String × Json) × List Char)
  | 0, _ => none
  | fuel + 1, l =>
    match skipWs l with
    | '"' :: rest =>
      match parseStringBody rest with
      | none => none
      | some (k, rest2) =>
        match skipWs rest2 with
        | ':' :: rest3 =>
          match parseValue fuel rest3 with
          | none => none
          | some (v, rest4) =>
            match skipWs rest4 with
            | ',' :: r => (parseMembers fuel r).map fun (ms, r2) => ((k, v) :: ms, r2)
            | '}' :: r => some ([(k, v)], r)
            | _ => none
        | _ => none
    | _ => none

end

instance {ε α : Type} [DecidableEq ε] [DecidableEq α] : DecidableEq (Except ε α) :=
  fun a b =>
    match a, b with
    | .ok x, .ok y =>
      if h : x = y then .isTrue (by rw [h]) else .isFalse (by simp [h])
    | .error x, .error y =>
      if h : x = y then .isTrue (by rw [h]) else .isFalse (by simp [h])
    | .ok _, .error _ => .isFalse (by simp)
    | .error _, .ok _ => .isFalse (by simp)

/-- `json.loads`: parse the whole string, rejecting trailing data. -/
def jsonParse (s : String) : Except Unit Json :=
  match parseValue (2 * s.length + 4) s.data with
  | some (j, rest) => if skipWs rest = [] then .ok j else .error ()
  | none => .error ()

/-! ## `_extract_json_from_text` (`services/agents.py`) -/

/-- Index of the first occurrence of three consecutive backticks. -/
def findTripleBacktick : List Char → Option Nat
  | '`' :: '`' :: '`' :: _ => some 0
  | _ :: rest => (findTripleBacktick rest).map Nat.succ
  | [] => none

/-- Capture group of the leftmost match of
```` ```(?:json)?\s*([\s\S]*?)``` ````: the text between the first fence
(after an optional `json` tag and greedy whitespace, neither of which can
contain a backtick) and the next closing fence.  If the first fence has
no closing fence there is no match at all. -/
def fencedCapture (text : String) : Option String :=
  match findTripleBacktick text.data with
  | none => none
  | some i =>
    let rest := text.data.drop (i + 3)
    let rest2 :=
      match rest with
      | 'j' :: 's' :: 'o' :: 'n' :: r => r
      | r => r
    let rest3 := rest2.dropWhile isPyWs
    match findTripleBacktick rest3 with
    | some k => some (String.mk (rest3.take k))
    | none => none

/-- Index of the last occurrence of `c`. -/
def lastIndexOf (c : Char) : List Char → Option Nat
  | [] => none
  | x :: rest =>
    match lastIndexOf c rest with
    | some k => some (k + 1)
    | none => if x = c then some 0 else none

/-- Leftmost match of `(\{[\s\S]*\}|\[[\s\S]*\])`: from the first opening
brace/bracket that has a matching closer somewhere after it, greedily to
the last such closer in the text. -/
def bareSpan : List Char → Option String
  | [] => none
  | '{' :: rest =>
    (match lastIndexOf '}' rest with
     | some q => some (String.mk ('{' :: rest.take (q + 1)))
     | none => bareSpan rest)
  | '[' :: rest =>
    (match lastIndexOf ']' rest with
     | some q => some (String.mk ('[' :: rest.take (q + 1)))
     | none => bareSpan rest)
  | _ :: rest => bareSpan rest

/-- `_extract_json_from_text`: fenced block first, else first bare
`{...}`/`[...]` span, else the whole trimmed text; the branch that is
present is parsed and a parse failure propagates (an uncaught
`json.JSONDecodeError`) without trying later branches. -/
def extractJsonFromText (text : String) : Except Unit Json :=
  match fencedCapture text with
  | some inner => jsonParse (pyStrip inner)
  | none =>
    match bareSpan text.data with
    | some span => jsonParse span
    | none => jsonParse (pyStrip text)

/-! ## Analysis agent (`run_analysis_agent`, `services/agents.py`)

The generation backend (`ChatOpenAI`) is an external collaborator: it is
modelled as an arbitrary function from the message list to a response,
universally quantified in every theorem.  The retrieval store is likewise
a pair of query functions. -/

structure ToolCall where
  name : Option String
  query : Option String
  id : Option String
  deriving Repr, DecidableEq

structure LlmResponse where
  content : String
  toolCalls : List ToolCall
  deriving Repr, DecidableEq

inductive Msg where
  | system (content : String) : Msg
  | human (content : String) : Msg
  | ai (content : String) (toolCalls : List ToolCall) : Msg
  | toolResult (content : String) (toolCallId : String) : Msg
  deriving Repr, DecidableEq

abbrev Backend := List Msg → LlmResponse

structure Provider where
  supplierSearch : String → List String
  itemSearch : String → List String

/-- `supplier_history` tool body (`search_supplier_history` + join). -/
def supplierHistoryTool (p : Provider) (query : String) : String :=
  let docs := p.supplierSearch query
  if docs = [] then "No supplier history found."
  else String.intercalate "\n\n" docs

/-- `item_history` tool body. -/
def itemHistoryTool (p : Provider) (query : String) : String :=
  let docs := p.itemSearch query
  if docs = [] then "No item history found."
  else String.intercalate "\n\n" docs

/-- Python `str(x)` on JSON-shaped values, used only to build default
tool queries (approximate for non-string values, which no claim
touches). -/
def Json.pyStr : Json → String
  | .str s => s
  | .null => "None"
  | .bool true => "True"
  | .bool false => "False"
  | .num q => if q.den = 1 then toString q.num else toString q
  | j => reprStr j

/-- First line of the `ANALYSIS_AGENT_SYSTEM` prompt constant
(`services/prompts.py`).  The literal prompt text is opaque to every
claim: all theorems quantify over the backend. -/
def ANALYSIS_AGENT_SYSTEM : String :=
  "You are the Analysis Agent for purchasing and inventory operations."

/-- `json.dumps(input_json, ensure_ascii=False)`; only feeds the backend,
whose behaviour is universally quantified, so rendering details are
immaterial. -/
def jsonDumps : Json → String
  | j => Json.pyStr j

/-- Default `supplier_history` query:
`str(input_json.get("supplier", ""))`. -/
def defaultSupplierQuery (input : Json) : String :=
  Json.pyStr ((input.get? "supplier").getD (.str ""))

/-- Default `item_history` query:
`" ".join(f"item_code: ..." for i in input_json.get("items", []))`. -/
def defaultItemQuery (input : Json) : String :=
  match (input.get? "items").getD (.arr []) with
  | .arr items =>
    String.intercalate " "
      (items.map fun i => "item_code: " ++ Json.pyStr ((i.get? "item_code").getD .null))
  | _ => ""

/-- Trace of the externally observable effects of one agent run. -/
inductive AgentEvent where
  | invokeLlm (msgs : List Msg) : AgentEvent
  | execTool (name : String) (query : String) : AgentEvent
  deriving Repr, DecidableEq

/-- `(tc.get("name") ...) or "supplier_history"`. -/
def effToolName (tc : ToolCall) : String :=
  match tc.name with
  | some s => if s = "" then "supplier_history" else s
  | none => "supplier_history"

/-- One iteration of the tool loop: the executed-tool events (a
recognized tool runs exactly once, an unrecognized name runs nothing)
and the `ToolMessage` fed back for every requested call. -/
def runOneTool (p : Provider) (input : Json) (tc : ToolCall) :
    List AgentEvent × Msg :=
  let name := effToolName tc
  let tid := tc.id.getD ""
  if name = "supplier_history" then
    let q := tc.query.getD (defaultSupplierQuery input)
    ([.execTool "supplier_history" q], .toolResult (supplierHistoryTool p q) tid)
  else if name = "item_history" then
    let q := tc.query.getD (defaultItemQuery input)
    ([.execTool "item_history" q], .toolResult (itemHistoryTool p q) tid)
  else
    ([], .toolResult "" tid)

/-- The tool loop over all requested calls of the first response. -/
def runTools (p : Provider) (input : Json) : List ToolCall → List AgentEvent × List Msg
  | [] => ([], [])
  | tc :: rest =>
    let (evs, msg) := runOneTool p input tc
    let (evsRest, msgsRest) := runTools p input rest
    (evs ++ evsRest, msg :: msgsRest)

/-- The initial planning-turn messages. -/
def initMessages (input : Json) : List Msg :=
  [.system ANALYSIS_AGENT_SYSTEM, .human (jsonDumps input)]

/-- The second-turn message list when the first response requested
tools. -/
def groundedMessages (p : Provider) (input : Json) (r1 : LlmResponse) : List Msg :=
  initMessages input ++ [.ai r1.content r1.toolCalls] ++ (runTools p input r1.toolCalls).2

/-- The response whose content is parsed as the final structured
output. -/
def finalResponse (backend : Backend) (p : Provider) (input : Json) : LlmResponse :=
  let r1 := backend (initMessages input)
  if r1.toolCalls = [] then r1
  else backend (groundedMessages p input r1)

/-- The fallback structured output when no JSON parses (lines 103-107). -/
def fallbackResult (text : String) (input : Json) : Json :=
  .obj [("purchasing_report_markdown", .str text),
        ("critical_questions", .arr []),
        ("replenishment_timeline", (input.get? "items").getD (.arr []))]

/-- `run_analysis_agent`: result value plus the trace of backend
invocations and tool executions. -/
def runAnalysisAgent (backend : Backend) (p : Provider) (input : Json) :
    Json × List AgentEvent :=
  let init := initMessages input
  let r1 := backend init
  let (resp2, events) :=
    if r1.toolCalls = [] then (r1, [AgentEvent.invokeLlm init])
    else
      let msgs2 := groundedMessages p input r1
      (backend msgs2,
        AgentEvent.invokeLlm init :: (runTools p input r1.toolCalls).1 ++ [AgentEvent.invokeLlm msgs2])
  let text := resp2.content
  (match extractJsonFromText text with
   | .ok j => j
   | .error _ => fallbackResult text input,
   events)

/-! ## Pipeline orchestrator events (`_run_pipeline`, `routers/pipeline.py`)

Progress events as received by the progress callback.  The five agent
runs, docx rendering, base64, disk writes and filename sanitization are
external collaborators here, modelled as opaque function parameters:
the emitted step sequence does not depend on their outputs. -/

structure ProgressEvent where
  step : String
  detail : List (String × String)
  deriving Repr, DecidableEq

structure ArtifactDoc where
  snapshot_date : String
  supplier : String
  body : String
  filename : String
  saved_path : String
  content_base64 : String
  deriving Repr, DecidableEq

structure RunPipelineResponse where
  groups : List SupplierGroup
  reports : List ArtifactDoc
  requests : List ArtifactDoc
  emails : List ArtifactDoc
  deriving Repr, DecidableEq

/-- The external collaborators `_run_pipeline` calls: the five agents
(the generation backend behind them is opaque at this layer), markdown →
docx bytes, base64, durable saves and filename sanitization. -/
structure PipelineStubs where
  runAnalysis : Json → Json
  runReportDoc : Json → String
  runPrDraft : String → String → String → Json → Json
  runPrDoc : Json → String
  runEmailDraft : String → String → String → List ItemRecord → Json → String
  mdToDocx : String → String
  b64 : String → String
  sanitize : String → String
  saveDocx : String → String → String → String

def itemRecordToJson (it : ItemRecord) : Json :=
  .obj [("item_code", .str it.item_code),
        ("item_name", .str it.item_name),
        ("risk_level", .str it.risk_level),
        ("current_stock", match it.current_stock with | some q => .num q | none => .null),
        ("wks_to_oos", match it.wks_to_oos with | some q => .num q | none => .null),
        ("suggested_quantity", match it.suggested_quantity with | some n => .num n | none => .null),
        ("recommended_latest_po_date", .str it.recommended_latest_po_date),
        ("recommended_latest_delivery_date", .str it.recommended_latest_delivery_date),
        ("recommended_latest_po_timing", .str it.recommended_latest_po_timing),
        ("recommended_latest_delivery_timing", .str it.recommended_latest_delivery_timing)]

/-- One artifact block of the loop body (lines 100-124 / 130-154 /
159-183): the events it emits and the artifact record it appends. -/
def artifactBlock (stubs : PipelineStubs) (streamMode inMemory : Bool)
    (snapshot supplier md filename : String) : List ProgressEvent × ArtifactDoc :=
  if inMemory then
    let b := stubs.b64 (stubs.mdToDocx md)
    ((if streamMode then [⟨"generating_file", [("filename", filename)]⟩] else []) ++
       (if streamMode then [⟨"file_ready", [("filename", filename), ("content_base64", b)]⟩] else []),
     { snapshot_date := snapshot, supplier := supplier, body := md,
       filename := filename, saved_path := "", content_base64 := b })
  else
    let path := stubs.saveDocx snapshot supplier md
    ([],
     { snapshot_date := snapshot, supplier := supplier, body := md,
       filename := filename, saved_path := path, content_base64 := stubs.b64 path })

/-- The per-group body of `_run_pipeline`'s loop: emitted events and the
(report, purchase-request, email) artifacts. -/
def groupLoopBody (stubs : PipelineStubs) (streamMode inMemory : Bool)
    (g : SupplierGroup) : List ProgressEvent × (ArtifactDoc × ArtifactDoc × ArtifactDoc) :=
  let snapshot := g.snapshot_date
  let supplier := g.supplier
  let items := g.items
  let riskLevel := match items with | it :: _ => it.risk_level | [] => "N/A"
  let inputJson : Json :=
    .obj [("snapshot_date", .str snapshot), ("supplier", .str supplier),
          ("items", .arr (items.map itemRecordToJson))]
  let analysisOutput := stubs.runAnalysis inputJson
  let analysisResult : Json :=
    .obj [("snapshot_date", .str snapshot), ("supplier", .str supplier),
          ("purchasing_report_markdown",
            (analysisOutput.get? "purchasing_report_markdown").getD (.str "")),
          ("critical_questions", (analysisOutput.get? "critical_questions").getD (.arr [])),
          ("replenishment_timeline",
            (analysisOutput.get? "replenishment_timeline").getD (.arr (items.map itemRecordToJson)))]
  let reportMd := stubs.runReportDoc analysisResult
  let safeSupplier := stubs.sanitize supplier
  let (evA, docA) := artifactBlock stubs streamMode inMemory snapshot supplier reportMd
    ("analysis_" ++ snapshot ++ "_" ++ safeSupplier ++ ".docx")
  let prDraft := stubs.runPrDraft snapshot supplier riskLevel analysisOutput
  let prMd := stubs.runPrDoc prDraft
  let (evP, docP) := artifactBlock stubs streamMode inMemory snapshot supplier prMd
    ("pr_" ++ snapshot ++ "_" ++ safeSupplier ++ ".docx")
  let emailText := stubs.runEmailDraft snapshot supplier riskLevel items analysisOutput
  let (evE, docE) := artifactBlock stubs streamMode inMemory snapshot supplier emailText
    ("email_draft_" ++ snapshot ++ "_" ++ safeSupplier ++ ".docx")
  let evAnalysis : List ProgressEvent :=
    if streamMode then [⟨"analysis", [("supplier", supplier)]⟩] else []
  -- line 88-89: the "report" step is emitted only when NOT in memory
  let evReport : List ProgressEvent :=
    if ¬ inMemory then (if streamMode then [⟨"report", [("supplier", supplier)]⟩] else []) else []
  let evPr : List ProgressEvent :=
    if streamMode then [⟨"pr", [("supplier", supplier)]⟩] else []
  let evEmail : List ProgressEvent :=
    if streamMode then [⟨"email", [("supplier", supplier)]⟩] else []
  (evAnalysis ++ evReport ++ evA ++ evPr ++ evP ++ evEmail ++ evE, (docA, docP, docE))

/-- `_run_pipeline`: the run result (an `HTTPException` or uncaught
grouping exception is `.error`) together with the events the progress
callback received (the callback is present exactly in stream mode). -/
def runPipeline (stubs : PipelineStubs) (decodedRows : List Row) (csvFilename : Option String)
    (streamMode embedFiles : Bool) :
    Except String RunPipelineResponse × List ProgressEvent :=
  let inMemory := streamMode || embedFiles
  let ev0 : List ProgressEvent := if streamMode then [⟨"csv_parsing", []⟩] else []
  let rows := parseCsvRows decodedRows csvFilename
  if rows = [] then (.error "HTTPException 400: No valid CSV rows.", ev0)
  else
    let ev1 := ev0 ++ (if streamMode then [⟨"item_grouping", []⟩] else [])
    match groupBySupplierAndRecommend rows with
    | .error e => (.error e, ev1)
    | .ok groups =>
      if groups = [] then (.error "HTTPException 400: No groups by supplier.", ev1)
      else
        let ev2 := ev1 ++
          (if streamMode then [⟨"item_grouping_done", [("count", toString groups.length)]⟩] else [])
        let bodies := groups.map (groupLoopBody stubs streamMode inMemory)
        let loopEvents := (bodies.map Prod.fst).flatten
        let response : RunPipelineResponse :=
          { groups := groups
            reports := bodies.map fun b => b.2.1
            requests := bodies.map fun b => b.2.2.1
            emails := bodies.map fun b => b.2.2.2 }
        let evFinal := ev2 ++ loopEvents ++
          (if streamMode then [⟨"complete", [("result", "run result")]⟩] else [])
        (.ok response, evFinal)

/-! ## Streaming bridge (`_stream_pipeline_events`, `routers/pipeline.py`)

`run_sync` enqueues progress events while the pipeline runs and appends
exactly one `error` event if the run raised.  The consumer loop is
embedded with an explicit interleaving schedule: at its `i`-th iteration,
`(sched i).1` is the number of events the producer has enqueued by the
moment `q.get(timeout=0.3)` resolves, and `(sched i).2 ` is the value of
`task.done()` at the subsequent check (consulted only when the get timed
out empty).  Fuel bounds the number of iterations; `none` means the loop
was still polling when the fuel ran out. -/

/-- The full queue history produced by `run_sync`. -/
def queueHistory (body : List ProgressEvent) (raised : Bool) (errMsg : String) :
    List ProgressEvent :=
  if raised then body ++ [⟨"error", [("error", errMsg)]⟩] else body

def isTerminal (e : ProgressEvent) : Bool :=
  e.step = "complete" ∨ e.step = "error"

/-- The consumer loop of `_stream_pipeline_events`: yields events in
arrival order; a `complete`/`error` event is yielded and ends the loop;
an empty poll with `task.done()` observed true ends the loop without
yielding. -/
def consumeStream (queue : List ProgressEvent) (sched : Nat → Nat × Bool) :
    Nat → Nat → Nat → Option (List ProgressEvent)
  | 0, _, _ => none
  | fuel + 1, i, c =>
    if c < min (sched i).1 queue.length then
      if isTerminal (queue.getD c ⟨"", []⟩) then some [queue.getD c ⟨"", []⟩]
      else
        match consumeStream queue sched fuel (i + 1) (c + 1) with
        | some out => some (queue.getD c ⟨"", []⟩ :: out)
        | none => none
    else if (sched i).2 then some []
    else consumeStream queue sched fuel (i + 1) c

/-- The event stream the caller of `/run/stream` receives. -/
def streamPipelineEvents (queue : List ProgressEvent) (sched : Nat → Nat × Bool)
    (fuel : Nat) : Option (List ProgressEvent) :=
  consumeStream queue sched fuel 0 0

/-! ## Specification-side characterizations used in theorem statements -/

/-- The rows the grouping loop keeps. -/
def keptRows (rows : List Row) : List Row := rows.filter rowKept

/-- First-seen-order deduplication of supplier names. -/
def dedupFirstSeen : List String → List String
  | [] => []
  | s :: rest => s :: dedupFirstSeen (rest.filter fun x => x ≠ s)
termination_by l => l.length
decreasing_by
  simp only [List.length_cons]
  have := List.length_filter_le (fun x => decide (x ≠ s)) rest
  omega

/-- The claimed shape of the grouping output, built directly from the
kept rows and their items: one group per supplier in first-seen order,
keyed with the first such row's snapshot date, items in original row
order. -/
def gatherGroups : List (Row × ItemRecord) → List SupplierGroup
  | [] => []
  | (r, it) :: rest =>
    { snapshot_date := rowSnapshot r
      supplier := rowSupplier r
      items := it :: (rest.filter fun p => rowSupplier p.1 = rowSupplier r).map Prod.snd } ::
      gatherGroups (rest.filter fun p => rowSupplier p.1 ≠ rowSupplier r)
termination_by l => l.length
decreasing_by
  simp only [List.length_cons]
  have := List.length_filter_le (fun p => decide (rowSupplier p.1 ≠ rowSupplier r)) rest
  omega

/-- Kept rows paired with their computed item records, in row order. -/
def pairedRows : List Row → Except String (List (Row × ItemRecord))
  | [] => .ok []
  | r :: rest =>
    if rowKept r then
      match mkItemRecord r with
      | .error e => .error e
      | .ok it => (pairedRows rest).map fun ps => ((r, it) :: ps)
    else pairedRows rest

/-- The claim's specification of `group_by_supplier_and_recommend`. -/
def gatherSpec (rows : List Row) : Except String (List SupplierGroup) :=
  (pairedRows rows).map gatherGroups

/-- Extending a group with the matching items of a pair list (used to
characterize the grouping fold). -/
def addItems (g : SupplierGroup) (ps : List (Row × ItemRecord)) : SupplierGroup :=
  { g with items := g.items ++ (ps.filter fun p => rowSupplier p.1 = g.supplier).map Prod.snd }

/-- The pure part of the grouping loop, once every kept row's item record
is computed. -/
def foldIns (acc : List SupplierGroup) (ps : List (Row × ItemRecord)) : List SupplierGroup :=
  ps.foldl (fun gs p => insertItem gs (rowSnapshot p.1) (rowSupplier p.1) p.2) acc

/-- Number of backend invocations in an agent trace. -/
def countInvocations (trace : List AgentEvent) : Nat :=
  trace.countP fun e =>
    match e with
    | .invokeLlm _ => true
    | .execTool _ _ => false

/-- The tool executions the first response's requested calls should
produce: one per recognized tool name, in request order. -/
def expectedExecs (input : Json) (calls : List ToolCall) : List AgentEvent :=
  calls.filterMap fun tc =>
    if effToolName tc = "supplier_history" then
      some (.execTool "supplier_history" (tc.query.getD (defaultSupplierQuery input)))
    else if effToolName tc = "item_history" then
      some (.execTool "item_history" (tc.query.getD (defaultItemQuery input)))
    else none

/-- Step names of an event sequence. -/
def stepsOf (events : List ProgressEvent) : List String :=
  events.map ProgressEvent.step

/-! ## Supporting lemmas -/

lemma digitVal_le_nine (c : Char) (h : c.isDigit = true) : digitVal c ≤ 9 := by
  simp [Char.isDigit, Char.le_def, UInt32.le_def, Fin.le_def, BitVec.le_def] at h
  simp [digitVal, Char.toNat, UInt32.toNat]
  omega

lemma parseTwoOrOne_bounds (hi : Nat) (h9 : 9 ≤ hi) :
    ∀ l v rest, parseTwoOrOne 1 hi l = some (v, rest) → 1 ≤ v ∧ v ≤ hi := by
  intro l v rest h
  unfold parseTwoOrOne at h
  split at h
  case _ a b t =>
    split_ifs at h with hd hv hd1 hv1 <;>
      simp only [Option.some.injEq, Prod.mk.injEq] at h
    · obtain ⟨h1, -⟩ := h
      omega
    · obtain ⟨h1, -⟩ := h
      have := digitVal_le_nine a hd1
      omega
  case _ a =>
    split_ifs at h with hd hv <;>
      simp only [Option.some.injEq, Prod.mk.injEq] at h
    obtain ⟨h1, -⟩ := h
    have := digitVal_le_nine a hd
    omega
  case _ => simp at h

/-- A successful `strptime` parse means a calendar-valid year 1..9999,
month 1..12, day 1..31 and the corresponding civil day number. -/
lemma parseDateDays_shape (s : String) (z : Nat) (h : parseDateDays s = some z) :
    ∃ y m d, 1 ≤ y ∧ y ≤ 9999 ∧ 1 ≤ m ∧ m ≤ 12 ∧ 1 ≤ d ∧ d ≤ 31 ∧
      z = daysFromCivil y m d := by
  unfold parseDateDays at h
  split at h
  case _ y1 y2 y3 y4 rest heq =>
    split_ifs at h with hdig hy0
    split at h
    case _ m mrest heq2 =>
      split at h
      case _ d heq3 =>
        split_ifs at h with hdm
        simp only [Option.some.injEq] at h
        have hmb := parseTwoOrOne_bounds 12 (by norm_num) _ _ _ heq2
        have hdb := parseTwoOrOne_bounds 31 (by norm_num) _ _ _ heq3
        have hdigs : y1.isDigit = true ∧ y2.isDigit = true ∧ y3.isDigit = true ∧
            y4.isDigit = true := by
          simpa [Bool.and_eq_true, and_assoc] using hdig
        have b1 := digitVal_le_nine y1 hdigs.1
        have b2 := digitVal_le_nine y2 hdigs.2.1
        have b3 := digitVal_le_nine y3 hdigs.2.2.1
        have b4 := digitVal_le_nine y4 hdigs.2.2.2
        refine ⟨yearVal y1 y2 y3 y4, m, d, ?_, ?_, hmb.1, hmb.2, hdb.1, hdb.2, h.symm⟩
        · unfold yearVal at hy0 ⊢
          omega
        · unfold yearVal
          omega
      case _ => simp at h
    case _ => simp at h
  case _ => simp at h

/-- Day numbers of parseable dates stay within the `datetime` range. -/
lemma parseDateDays_bounds (s : String) (z : Nat) (h : parseDateDays s = some z) :
    minDay ≤ z ∧ z ≤ maxDay := by
  obtain ⟨y, m, d, h1, h2, h3, h4, h5, h6, rfl⟩ := parseDateDays_shape s z h
  simp only [daysFromCivil, minDay, maxDay]
  split_ifs <;> omega

lemma effWksOf_pos (wksRaw : Option String) : 0 < effWksOf wksRaw := by
  unfold effWksOf TOTAL_LEAD_WEEKS IMPORT_LEAD_WEEKS INTERNAL_LEAD_WEEKS
  rcases pyFloatOpt wksRaw with _ | w
  · norm_num
  · dsimp only
    split_ifs with hw
    · exact hw
    · norm_num

lemma addDays_ok (z : Nat) (k : ℤ) (h1 : (minDay : ℤ) ≤ (z : ℤ) + k)
    (h2 : (z : ℤ) + k ≤ (maxDay : ℤ)) :
    addDays z k = .ok ((z : ℤ) + k).toNat := by
  unfold addDays
  rw [if_pos ⟨h1, h2⟩]

/-! ## Claim theorems -/

lemma floor_ite_eq_ceil (q : ℚ) : ⌊q⌋ + (if q = (⌊q⌋ : ℚ) then 0 else 1) = ⌈q⌉ := by
  by_cases h : q = (⌊q⌋ : ℚ)
  · rw [if_pos h]
    rw [show ⌈q⌉ = ⌈(⌊q⌋ : ℚ)⌉ from by rw [← h]]
    simp
  · rw [if_neg h]
    have h1 : (⌊q⌋ : ℚ) < q := lt_of_le_of_ne (Int.floor_le q) (fun he => h he.symm)
    have h2 : ⌊q⌋ < ⌈q⌉ := Int.lt_ceil.mpr h1
    have h3 : ⌈q⌉ ≤ ⌊q⌋ + 1 := Int.ceil_le_floor_add_one q
    omega

/-- C1 counterexample: the claim quantifies over every valid
`snapshot_date` and every `wks_to_oos` input, but at the valid snapshot
`"2025-01-01"` with `wks_to_oos = 1000000` (positive, so not substituted)
`build_recommendations_for_item` raises `OverflowError` — the delivery
date `snapshot + 7000000 days` leaves the `datetime` year range — and
returns no dates at all. -/
theorem C1_counterexample :
    parseDateDays "2025-01-01" = some 739557 ∧
    pyFloatOpt (some "1000000") = some 1000000 ∧ (0 : ℚ) < 1000000 ∧
    (buildRecommendationsForItem "2025-01-01" (some "1000000")).isOk = false := by
  refine ⟨by decide, ?_, by norm_num, ?_⟩
  · simp +decide [pyFloatOpt, pyFloat, pyFloatCore, stripChars, digitVal]
  · have h1 : parseDateDays "2025-01-01" = some 739557 := by decide
    have h2 : effWksOf (some "1000000") = 1000000 := by
      simp +decide [effWksOf, pyFloatOpt, pyFloat, pyFloatCore, stripChars, digitVal]
    have h3 : (⌊effWksOf (some "1000000") * 7⌋ : ℤ) = 7000000 := by
      rw [h2]; norm_num
    simp [buildRecommendationsForItem, h1, h3, addDays, minDay, maxDay, daysFromCivil,
      Except.isOk, Except.toBool]

/-- C1 (amended): for every valid snapshot_date and every wks_to_oos
input (missing or non-positive substituted by the 18-week total lead
time) whose delivery-date arithmetic stays within the representable
calendar (delivery ≤ 9999-12-31 and delivery − 126 days ≥ 0001-01-01),
`build_recommendations_for_item` returns dates with
snapshot ≤ latest_po ≤ latest_delivery, where latest_po is
latest_delivery − 18×7 days clamped up to the snapshot date. -/
theorem C1_po_date_bounds (dstr : String) (wksRaw : Option String) (snap : Nat)
    (hparse : parseDateDays dstr = some snap)
    (hup : snap + (⌊effWksOf wksRaw * 7⌋).toNat ≤ maxDay)
    (hdown : minDay + 126 ≤ snap + (⌊effWksOf wksRaw * 7⌋).toNat) :
    let delivery := snap + (⌊effWksOf wksRaw * 7⌋).toNat
    let po := max snap (delivery - 126)
    snap ≤ po ∧ po ≤ delivery ∧
    buildRecommendationsForItem dstr wksRaw = .ok {
      recommended_latest_po_date := formatDate po
      recommended_latest_delivery_date := formatDate delivery
      recommended_latest_po_timing := buildTimingLabelFromWeeks (((po : ℚ) - (snap : ℚ)) / 7)
      recommended_latest_delivery_timing :=
        buildTimingLabelFromWeeks (((delivery : ℚ) - (snap : ℚ)) / 7) } := by
  intro delivery po
  have hsnapb := parseDateDays_bounds _ _ hparse
  have hflnn : 0 ≤ ⌊effWksOf wksRaw * 7⌋ := by
    apply Int.le_floor.mpr
    push_cast
    have := effWksOf_pos wksRaw
    positivity
  have h1 : snap ≤ po := le_max_left _ _
  have h2 : po ≤ delivery := by
    apply max_le
    · simp only [delivery]
      omega
    · exact Nat.sub_le _ _
  refine ⟨h1, h2, ?_⟩
  have hA : addDays snap ⌊effWksOf wksRaw * 7⌋ = .ok delivery := by
    have c1 : (minDay : ℤ) ≤ (snap : ℤ) + ⌊effWksOf wksRaw * 7⌋ := by omega
    have c2 : (snap : ℤ) + ⌊effWksOf wksRaw * 7⌋ ≤ (maxDay : ℤ) := by omega
    rw [addDays_ok snap ⌊effWksOf wksRaw * 7⌋ c1 c2]
    congr 1
    simp only [delivery]
    omega
  have hB : addDays delivery (-(18 * 7)) = .ok (delivery - 126) := by
    have hd : delivery = snap + (⌊effWksOf wksRaw * 7⌋).toNat := rfl
    have c1 : (minDay : ℤ) ≤ (delivery : ℤ) + -(18 * 7) := by
      rw [hd]; push_cast; omega
    have c2 : (delivery : ℤ) + -(18 * 7) ≤ (maxDay : ℤ) := by
      rw [hd]; push_cast; omega
    rw [addDays_ok delivery (-(18 * 7)) c1 c2]
    congr 1
    rw [hd]
    push_cast
    omega
  have hpo : (if delivery - 126 < snap then snap else delivery - 126) = po := by
    simp only [po]
    split_ifs <;> omega
  simp only [buildRecommendationsForItem, hparse, hA, hB, hpo]

/-- C1 witness: the amended theorem applied at snapshot 2025-01-01 with a
missing wks_to_oos (effective weeks 18): latest delivery 2025-05-07,
latest PO clamped to the snapshot date. -/
theorem C1_po_date_bounds_witness :
    parseDateDays "2025-01-01" = some 739557 ∧
    buildRecommendationsForItem "2025-01-01" none = .ok {
      recommended_latest_po_date := "2025-01-01"
      recommended_latest_delivery_date := "2025-05-07"
      recommended_latest_po_timing := "immediately"
      recommended_latest_delivery_timing := "within 18 weeks" } := by
  have hp : parseDateDays "2025-01-01" = some 739557 := by decide
  have heff : effWksOf none = 18 := by
    norm_num [effWksOf, pyFloatOpt, TOTAL_LEAD_WEEKS, IMPORT_LEAD_WEEKS, INTERNAL_LEAD_WEEKS]
  have hfl : (⌊effWksOf none * 7⌋ : ℤ) = 126 := by rw [heff]; norm_num
  have h := C1_po_date_bounds "2025-01-01" none 739557 hp (by rw [hfl]; decide)
    (by rw [hfl]; decide)
  refine ⟨hp, ?_⟩
  refine h.2.2.trans ?_
  rw [hfl]
  norm_num
  have e : (739557 + Int.toNat 126 - 126 : ℕ) = 739557 := by decide
  have e2 : (Int.toNat 126 : ℕ) = 126 := by decide
  refine ⟨?_, ?_, ?_, ?_⟩
  · decide
  · decide
  · rw [e]
    have e3 : ((739557 : ℚ) ⊔ ((739557 : ℕ) : ℚ) - 739557) / 7 = 0 := by
      norm_num
    rw [e3]
    norm_num [buildTimingLabelFromWeeks]
  · rw [e2]
    have e4 : (((126 : ℕ) : ℚ)) / 7 = 18 := by norm_num
    rw [e4]
    norm_num [buildTimingLabelFromWeeks, pyRound]
    decide

/-- C2: `compute_suggested_quantity_at_latest_delivery` is `None` exactly
when a value is missing/unparseable or non-positive, and otherwise is
`⌈(current_stock / wks_to_oos) × 26⌉`; in particular 130/26 → 130 and
100/25 → 104. -/
theorem C2_suggested_quantity :
    (∀ stockRaw wksRaw : Option String,
      (computeSuggestedQuantityAtLatestDelivery stockRaw wksRaw = none ↔
        match pyFloatOpt stockRaw, pyFloatOpt wksRaw with
        | some s, some w => ¬(s > 0 ∧ w > 0)
        | _, _ => True)) ∧
    (∀ (stockRaw wksRaw : Option String) (s w : ℚ),
      pyFloatOpt stockRaw = some s → pyFloatOpt wksRaw = some w → 0 < s → 0 < w →
      computeSuggestedQuantityAtLatestDelivery stockRaw wksRaw = some ⌈s / w * 26⌉) ∧
    computeSuggestedQuantityAtLatestDelivery (some "130") (some "26") = some 130 ∧
    computeSuggestedQuantityAtLatestDelivery (some "100") (some "25") = some 104 := by
  have key : ∀ (stockRaw wksRaw : Option String) (s w : ℚ),
      pyFloatOpt stockRaw = some s → pyFloatOpt wksRaw = some w → 0 < s → 0 < w →
      computeSuggestedQuantityAtLatestDelivery stockRaw wksRaw = some ⌈s / w * 26⌉ := by
    intro stockRaw wksRaw s w h1 h2 hs hw
    unfold computeSuggestedQuantityAtLatestDelivery
    simp only [h1, h2]
    have hpos : (0 : ℚ) < s / w * COVERAGE_WEEKS_AFTER_DELIVERY := by
      unfold COVERAGE_WEEKS_AFTER_DELIVERY
      positivity
    rw [if_pos ⟨hs, hw⟩, if_neg (not_le.mpr hpos)]
    rw [show s / w * COVERAGE_WEEKS_AFTER_DELIVERY = s / w * 26 from by
      norm_num [COVERAGE_WEEKS_AFTER_DELIVERY]]
    rw [floor_ite_eq_ceil]
  refine ⟨?_, key, ?_, ?_⟩
  · intro stockRaw wksRaw
    unfold computeSuggestedQuantityAtLatestDelivery
    rcases h1 : pyFloatOpt stockRaw with _ | s
    · simp
    · rcases h2 : pyFloatOpt wksRaw with _ | w
      · simp
      · simp only
        split_ifs with hpos htgt
        · simp [hpos]
        · simp [hpos]
        · simp [hpos]
  · have h1 : pyFloatOpt (some "130") = some 130 := by
      simp +decide [pyFloatOpt, pyFloat, pyFloatCore, stripChars, digitVal]
    have h2 : pyFloatOpt (some "26") = some 26 := by
      simp +decide [pyFloatOpt, pyFloat, pyFloatCore, stripChars, digitVal]
    rw [key (some "130") (some "26") 130 26 h1 h2 (by norm_num) (by norm_num)]
    norm_num
  · have h1 : pyFloatOpt (some "100") = some 100 := by
      simp +decide [pyFloatOpt, pyFloat, pyFloatCore, stripChars, digitVal]
    have h2 : pyFloatOpt (some "25") = some 25 := by
      simp +decide [pyFloatOpt, pyFloat, pyFloatCore, stripChars, digitVal]
    rw [key (some "100") (some "25") 100 25 h1 h2 (by norm_num) (by norm_num)]
    norm_num

/-- C2 witness: the ceiling formula applied at stock 130, wks 26. -/
theorem C2_suggested_quantity_witness :
    computeSuggestedQuantityAtLatestDelivery (some "130") (some "26") =
      some ⌈(130 : ℚ) / 26 * 26⌉ := by
  have h1 : pyFloatOpt (some "130") = some 130 := by
    simp +decide [pyFloatOpt, pyFloat, pyFloatCore, stripChars, digitVal]
  have h2 : pyFloatOpt (some "26") = some 26 := by
    simp +decide [pyFloatOpt, pyFloat, pyFloatCore, stripChars, digitVal]
  exact C2_suggested_quantity.2.1 (some "130") (some "26") 130 26 h1 h2
    (by norm_num) (by norm_num)

/-- C10: `snapshot_date_from_filename` performs no calendar validation —
the first six consecutive digits (even inside a longer run) become a
YYYY-MM-DD-shaped string even for month 13 or 34 — and when the result is
not a valid calendar date every `build_recommendations_for_item` call on
it raises, so a whole grouping run over such rows fails rather than
dropping the affected rows. -/
theorem C10_no_calendar_validation :
    snapshotDateFromFilename "Urgent_Stock_311325.csv" = some "2025-13-31" ∧
    snapshotDateFromFilename "report_1234567.csv" = some "2056-34-12" ∧
    snapshotDateFromFilename "a120399_and_311325.csv" = some "2099-03-12" ∧
    parseDateDays "2025-13-31" = none ∧
    (∀ (fn s : String) (w : Option String), snapshotDateFromFilename fn = some s →
      parseDateDays s = none → (buildRecommendationsForItem s w).isOk = false) ∧
    (groupBySupplierAndRecommend
      (parseCsvRows [[("SupplierName", "S"), ("ItemCode", "1"), ("ItemName", "N")],
                     [("SupplierName", "T"), ("ItemCode", "2"), ("ItemName", "M")]]
        (some "Urgent_Stock_311325.csv"))).isOk = false := by
  refine ⟨by decide, by decide, by decide, by decide, ?_, by decide⟩
  intro fn s w hfn hbad
  simp [buildRecommendationsForItem, hbad, Except.isOk, Except.toBool]

/-- C10 witness: the error propagation applied to the month-13 date taken
from a real filename. -/
theorem C10_no_calendar_validation_witness :
    (buildRecommendationsForItem "2025-13-31" (some "5")).isOk = false :=
  C10_no_calendar_validation.2.2.2.2.1 "Urgent_Stock_311325.csv" "2025-13-31" (some "5")
    (by decide) (by decide)

end PurchasingWorkflow
namespace PurchasingWorkflow

lemma parseCsvRowsGo_const (s : String) (hs : s ≠ "") :
    ∀ rows, parseCsvRowsGo (some s) rows = rows.map fun r => setKey r "snapshot_date" s := by
  intro rows
  induction rows with
  | nil => rfl
  | cons row rest ih =>
    unfold parseCsvRowsGo
    have hsn : pyOr (some s) (rowSnapCell row) = some s := by
      unfold pyOr
      rw [if_pos]
      unfold truthy
      simpa using hs
    rw [hsn]
    have ht : truthy (some s) = true := by
      unfold truthy
      simpa using hs
    simp only [ht, if_pos, List.map_cons]
    rw [if_pos hs]
    simp [ih]

theorem C3_counterexample :
    rowSnapCell [("snapshot_date", "2025-02-02"), ("x", "2")] = some "2025-02-02" ∧
    parseCsvRows [[("snapshot_date", "2025-01-01"), ("x", "1")],
                  [("snapshot_date", "2025-02-02"), ("x", "2")]] none =
      [[("snapshot_date", "2025-01-01"), ("x", "1")],
       [("snapshot_date", "2025-01-01"), ("x", "2")]] ∧
    (parseCsvRows [[("snapshot_date", "2025-01-01"), ("x", "1")],
                   [("snapshot_date", "2025-02-02"), ("x", "2")]] none).map
        (fun r => findField r "snapshot_date") ≠
      [some "2025-01-01", some "2025-02-02"] := by
  refine ⟨by decide, by decide, by decide⟩

theorem C3_snapshot_resolution :
    (∀ (rows : List Row) (fn d : String), fn ≠ "" → snapshotDateFromFilename fn = some d →
      d ≠ "" →
      parseCsvRows rows (some fn) = rows.map fun r => setKey r "snapshot_date" d) ∧
    (∀ (r1 : Row) (rest : List Row) (v : String), rowSnapCell r1 = some v → v ≠ "" →
      pyStrip v ≠ "" →
      parseCsvRows (r1 :: rest) none =
        setKey r1 "snapshot_date" (pyStrip v) ::
          rest.map fun r => setKey r "snapshot_date" (pyStrip v)) ∧
    (∀ (r1 : Row) (rest : List Row), truthy (rowSnapCell r1) = false →
      parseCsvRows (r1 :: rest) none = r1 :: parseCsvRows rest none) := by
  refine ⟨?_, ?_, ?_⟩
  · intro rows fn d hfn hd hne
    simp only [parseCsvRows, hfn, if_true, ne_eq, not_false_eq_true, if_pos, hd]
    exact parseCsvRowsGo_const d hne rows
  · intro r1 rest v hv hvne hsne
    simp only [parseCsvRows, parseCsvRowsGo]
    have h1 : pyOr none (rowSnapCell r1) = some v := by
      unfold pyOr truthy
      simp [hv]
    rw [h1]
    have ht : truthy (some v) = true := by
      unfold truthy
      simpa using hvne
    simp only [ht, if_pos]
    simp only [Option.getD_some]
    rw [if_pos hsne]
    rw [parseCsvRowsGo_const (pyStrip v) hsne rest]
  · intro r1 rest hfalse
    simp only [parseCsvRows, parseCsvRowsGo]
    have h1 : pyOr none (rowSnapCell r1) = rowSnapCell r1 := by
      unfold pyOr truthy
      simp
    rw [h1]
    simp only [hfalse]
    simp

theorem C3_snapshot_resolution_witness :
    parseCsvRows [[("a", "1")], [("a", "2")]] (some "Stock_050425.csv") =
      [[("a", "1"), ("snapshot_date", "2025-04-05")],
       [("a", "2"), ("snapshot_date", "2025-04-05")]] := by
  have h := C3_snapshot_resolution.1 [[("a", "1")], [("a", "2")]] "Stock_050425.csv"
    "2025-04-05" (by decide) (by decide) (by decide)
  exact h.trans (by decide)

end PurchasingWorkflow
namespace PurchasingWorkflow

lemma runTools_spec (p : Provider) (input : Json) :
    ∀ calls : List ToolCall, (runTools p input calls).1 = expectedExecs input calls ∧
      (runTools p input calls).2.length = calls.length := by
  intro calls
  induction calls with
  | nil => simp [runTools, expectedExecs]
  | cons tc rest ih =>
    by_cases h1 : effToolName tc = "supplier_history"
    · simp [runTools, runOneTool, expectedExecs, h1, ih.1, ih.2]
    · by_cases h2 : effToolName tc = "item_history"
      · simp [runTools, runOneTool, expectedExecs, h1, h2, ih.1, ih.2]
      · simp [runTools, runOneTool, expectedExecs, h1, h2, ih.1, ih.2]

lemma countInvocations_expectedExecs (input : Json) (calls : List ToolCall) :
    countInvocations (expectedExecs input calls) = 0 := by
  induction calls with
  | nil => rfl
  | cons tc rest ih =>
    by_cases h1 : effToolName tc = "supplier_history"
    · simp [expectedExecs, countInvocations, List.countP_cons, h1] at ih ⊢
      exact ih
    · by_cases h2 : effToolName tc = "item_history"
      · simp [expectedExecs, countInvocations, List.countP_cons, h1, h2] at ih ⊢
        exact ih
      · simp [expectedExecs, countInvocations, List.countP_cons, h1, h2] at ih ⊢
        exact ih

theorem C4_two_invocation_cap :
    (∀ (backend : Backend) (p : Provider) (input : Json),
      countInvocations (runAnalysisAgent backend p input).2 ≤ 2) ∧
    (∀ (backend : Backend) (p : Provider) (input : Json),
      (backend (initMessages input)).toolCalls = [] →
      (runAnalysisAgent backend p input).2 = [.invokeLlm (initMessages input)]) ∧
    (∀ (backend : Backend) (p : Provider) (input : Json),
      (backend (initMessages input)).toolCalls ≠ [] →
      (runAnalysisAgent backend p input).2 =
        .invokeLlm (initMessages input) ::
          (expectedExecs input (backend (initMessages input)).toolCalls ++
            [.invokeLlm (groundedMessages p input (backend (initMessages input)))])) ∧
    (∀ (p : Provider) (input : Json) (calls : List ToolCall),
      (runTools p input calls).1 = expectedExecs input calls ∧
      (runTools p input calls).2.length = calls.length) ∧
    (∀ (b1 b2 : Backend) (p : Provider) (input : Json),
      b1 (initMessages input) = b2 (initMessages input) →
      (b1 (groundedMessages p input (b1 (initMessages input)))).content =
        (b2 (groundedMessages p input (b2 (initMessages input)))).content →
      (runAnalysisAgent b1 p input).1 = (runAnalysisAgent b2 p input).1) := by
  have hempty : ∀ (backend : Backend) (p : Provider) (input : Json),
      (backend (initMessages input)).toolCalls = [] →
      (runAnalysisAgent backend p input).2 = [.invokeLlm (initMessages input)] := by
    intro backend p input h
    unfold runAnalysisAgent
    simp [h]
  have hfull : ∀ (backend : Backend) (p : Provider) (input : Json),
      (backend (initMessages input)).toolCalls ≠ [] →
      (runAnalysisAgent backend p input).2 =
        .invokeLlm (initMessages input) ::
          (expectedExecs input (backend (initMessages input)).toolCalls ++
            [.invokeLlm (groundedMessages p input (backend (initMessages input)))]) := by
    intro backend p input h
    unfold runAnalysisAgent
    simp [h, (runTools_spec p input _).1]
  refine ⟨?_, hempty, hfull, runTools_spec, ?_⟩
  · intro backend p input
    by_cases h : (backend (initMessages input)).toolCalls = []
    · rw [hempty backend p input h]
      simp [countInvocations]
    · have hz := countInvocations_expectedExecs input (backend (initMessages input)).toolCalls
      rw [hfull backend p input h]
      unfold countInvocations at hz ⊢
      simp [List.countP_cons, List.countP_append, hz]
  · intro b1 b2 p input h1 h2
    unfold runAnalysisAgent
    by_cases hc : (b1 (initMessages input)).toolCalls = []
    · have hc2 : (b2 (initMessages input)).toolCalls = [] := by rw [← h1]; exact hc
      have hcont : (b1 (initMessages input)).content = (b2 (initMessages input)).content := by
        rw [h1]
      simp [hc, hc2, hcont]
    · have hc2 : (b2 (initMessages input)).toolCalls ≠ [] := by rw [← h1]; exact hc
      have hg : groundedMessages p input (b1 (initMessages input)) =
          groundedMessages p input (b2 (initMessages input)) := by rw [h1]
      simp only [hc, hc2, if_neg, if_false]
      rw [← hg] at h2 ⊢
      simp [h2]

end PurchasingWorkflow
namespace PurchasingWorkflow

theorem C4_two_invocation_cap_witness :
    (runAnalysisAgent
        (fun _ => { content := "plan",
                    toolCalls := [{ name := some "supplier_history", query := some "q",
                                    id := some "i1" }] })
        { supplierSearch := fun _ => [], itemSearch := fun _ => [] } (Json.obj [])).2 =
      .invokeLlm (initMessages (Json.obj [])) ::
        (expectedExecs (Json.obj [])
            [{ name := some "supplier_history", query := some "q", id := some "i1" }] ++
          [.invokeLlm (groundedMessages
            { supplierSearch := fun _ => [], itemSearch := fun _ => [] } (Json.obj [])
            { content := "plan",
              toolCalls := [{ name := some "supplier_history", query := some "q",
                              id := some "i1" }] })]) :=
  C4_two_invocation_cap.2.2.1
    (fun _ => { content := "plan",
                toolCalls := [{ name := some "supplier_history", query := some "q",
                                id := some "i1" }] })
    { supplierSearch := fun _ => [], itemSearch := fun _ => [] } (Json.obj [])
    (by decide)

theorem C5_fallback (backend : Backend) (p : Provider) (input : Json) (items : Json)
    (hitems : input.get? "items" = some items)
    (hfail : extractJsonFromText (finalResponse backend p input).content = .error ()) :
    (runAnalysisAgent backend p input).1 =
      .obj [("purchasing_report_markdown", .str (finalResponse backend p input).content),
            ("critical_questions", .arr []),
            ("replenishment_timeline", items)] := by
  unfold runAnalysisAgent
  unfold finalResponse at hfail
  by_cases hc : (backend (initMessages input)).toolCalls = []
  · simp only [hc, if_pos] at hfail ⊢
    rw [hfail]
    unfold finalResponse fallbackResult
    simp [hc, hitems]
  · simp only [hc, if_neg, if_false] at hfail ⊢
    rw [hfail]
    unfold finalResponse fallbackResult
    simp [hc, hitems]

theorem C5_fallback_witness :
    (runAnalysisAgent (fun _ => { content := "hello world", toolCalls := [] })
        { supplierSearch := fun _ => [], itemSearch := fun _ => [] }
        (Json.obj [("items", Json.arr [Json.str "x"])])).1 =
      .obj [("purchasing_report_markdown", .str "hello world"),
            ("critical_questions", .arr []),
            ("replenishment_timeline", Json.arr [Json.str "x"])] := by
  have h := C5_fallback (fun _ => { content := "hello world", toolCalls := [] })
    { supplierSearch := fun _ => [], itemSearch := fun _ => [] }
    (Json.obj [("items", Json.arr [Json.str "x"])]) (Json.arr [Json.str "x"])
    (by decide) (by decide)
  exact h

theorem C6_counterexample :
    fencedCapture "```\nnot json\n``` [1]" = some "not json\n" ∧
    jsonParse (pyStrip "not json\n") = .error () ∧
    bareSpan ("```\nnot json\n``` [1]").data = some "[1]" ∧
    jsonParse "[1]" = .ok (.arr [.num 1]) ∧
    extractJsonFromText "```\nnot json\n``` [1]" = .error () ∧
    extractJsonFromText "```\nnot json\n``` [1]" ≠ .ok (.arr [.num 1]) := by
  exact ⟨by decide, by decide, by decide, by decide, by decide, by decide⟩

theorem C6_extraction_order :
    (∀ text inner, fencedCapture text = some inner →
      extractJsonFromText text = jsonParse (pyStrip inner)) ∧
    (∀ text span, fencedCapture text = none → bareSpan text.data = some span →
      extractJsonFromText text = jsonParse span) ∧
    (∀ text, fencedCapture text = none → bareSpan text.data = none →
      extractJsonFromText text = jsonParse (pyStrip text)) := by
  refine ⟨?_, ?_, ?_⟩
  · intro text inner h
    simp [extractJsonFromText, h]
  · intro text span h1 h2
    simp [extractJsonFromText, h1, h2]
  · intro text h1 h2
    simp [extractJsonFromText, h1, h2]

theorem C6_extraction_order_witness :
    extractJsonFromText "```\n[2]\n```" = jsonParse (pyStrip "[2]\n") :=
  C6_extraction_order.1 "```\n[2]\n```" "[2]\n" (by decide)

end PurchasingWorkflow
namespace PurchasingWorkflow

lemma groupGo_pairs : ∀ (rows : List Row) (acc : List SupplierGroup),
    groupGo acc rows = (pairedRows rows).map (foldIns acc) := by
  intro rows
  induction rows with
  | nil => intro acc; simp [groupGo, pairedRows, foldIns, Except.map]
  | cons r rest ih =>
    intro acc
    by_cases hk : rowKept r = true
    · simp only [groupGo, pairedRows, hk, if_pos]
      cases hm : mkItemRecord r with
      | error e => simp [hm, Except.map]
      | ok it =>
        simp only [hm]
        rw [ih]
        cases hrest : pairedRows rest with
        | error e => simp [Except.map]
        | ok ps => simp [Except.map, foldIns]
    · simp only [groupGo, pairedRows, hk]
      simp only [Bool.false_eq_true, if_false]
      exact ih acc

end PurchasingWorkflow
namespace PurchasingWorkflow

lemma addItems_nil (g : SupplierGroup) : addItems g [] = g := by
  simp [addItems]

lemma addItems_upd (g : SupplierGroup) (p : Row × ItemRecord) (ps : List (Row × ItemRecord)) :
    addItems (if g.supplier = rowSupplier p.1 then { g with items := g.items ++ [p.2] } else g)
      ps = addItems g (p :: ps) := by
  by_cases hs : g.supplier = rowSupplier p.1
  · rw [if_pos hs]
    simp [addItems, List.filter_cons, hs.symm, List.append_assoc]
  · rw [if_neg hs]
    have hns : ¬(rowSupplier p.1 = g.supplier) := fun he => hs he.symm
    simp [addItems, List.filter_cons, hns]

lemma foldIns_char : ∀ (ps : List (Row × ItemRecord)) (acc : List SupplierGroup),
    foldIns acc ps =
      acc.map (fun g => addItems g ps) ++
        gatherGroups (ps.filter fun p => !(acc.any fun g => g.supplier = rowSupplier p.1)) := by
  intro ps
  induction ps with
  | nil =>
    intro acc
    simp [foldIns, gatherGroups, addItems_nil]
  | cons p ps ih =>
    intro acc
    rw [show foldIns acc (p :: ps) =
      foldIns (insertItem acc (rowSnapshot p.1) (rowSupplier p.1) p.2) ps from rfl]
    rw [ih]
    by_cases hmem : (acc.any fun g => g.supplier = rowSupplier p.1) = true
    · have e1 : insertItem acc (rowSnapshot p.1) (rowSupplier p.1) p.2 =
          acc.map fun g =>
            if g.supplier = rowSupplier p.1 then { g with items := g.items ++ [p.2] } else g := by
        unfold insertItem
        rw [if_pos hmem]
      rw [e1]
      have e2 : ∀ x : String,
          ((acc.map fun g =>
            if g.supplier = rowSupplier p.1 then { g with items := g.items ++ [p.2] } else g).any
              fun g => g.supplier = x) = (acc.any fun g => g.supplier = x) := by
        intro x
        rw [List.any_map]
        congr 1
        funext g
        by_cases h : g.supplier = rowSupplier p.1 <;> simp [Function.comp, h]
      have e3 : ((p :: ps).filter fun q => !(acc.any fun g => g.supplier = rowSupplier q.1)) =
          ps.filter fun q => !(acc.any fun g => g.supplier = rowSupplier q.1) := by
        rw [List.filter_cons]
        simp [hmem]
      have e4 : (ps.filter fun q =>
            !((acc.map fun g =>
              if g.supplier = rowSupplier p.1 then { g with items := g.items ++ [p.2] } else g).any
                fun g => g.supplier = rowSupplier q.1)) =
          ps.filter fun q => !(acc.any fun g => g.supplier = rowSupplier q.1) := by
        apply List.filter_congr
        intro q hq
        rw [e2]
      rw [e4, e3, List.map_map]
      congr 1
      apply List.map_congr_left
      intro g hg
      exact addItems_upd g p ps
    · have hmem' : (acc.any fun g => g.supplier = rowSupplier p.1) = false := by
        simpa using hmem
      have hnot : ∀ g ∈ acc, ¬(g.supplier = rowSupplier p.1) := by
        intro g hg h
        exact hmem (List.any_eq_true.mpr ⟨g, hg, by simp [h]⟩)
      have e1 : insertItem acc (rowSnapshot p.1) (rowSupplier p.1) p.2 =
          acc ++ [SupplierGroup.mk (rowSnapshot p.1) (rowSupplier p.1) [p.2]] := by
        unfold insertItem
        rw [if_neg]
        simp [hmem']
      rw [e1]
      rw [List.map_append, List.map_singleton]
      -- filter over the extended accumulator splits into the old filter and ≠ new supplier
      have e5 : (ps.filter fun q =>
            !((acc ++ [SupplierGroup.mk (rowSnapshot p.1) (rowSupplier p.1) [p.2]]).any
              fun g => g.supplier = rowSupplier q.1)) =
          (ps.filter fun q => !(acc.any fun g => g.supplier = rowSupplier q.1)).filter
            fun q => rowSupplier q.1 ≠ rowSupplier p.1 := by
        rw [List.filter_filter]
        apply List.filter_congr
        intro q hq
        simp [List.any_append, Bool.and_comm, eq_comm]
      have e6 : ((p :: ps).filter fun q => !(acc.any fun g => g.supplier = rowSupplier q.1)) =
          p :: (ps.filter fun q => !(acc.any fun g => g.supplier = rowSupplier q.1)) := by
        rw [List.filter_cons]
        simp [hmem']
      rw [e5, e6]
      -- unfold the head of gatherGroups on the cons
      conv_rhs => rw [gatherGroups]
      have e7 : ((ps.filter fun q => !(acc.any fun g => g.supplier = rowSupplier q.1)).filter
            fun q => rowSupplier q.1 = rowSupplier p.1) =
          ps.filter fun q => rowSupplier q.1 = rowSupplier p.1 := by
        rw [List.filter_filter]
        apply List.filter_congr
        intro q hq
        by_cases h : rowSupplier q.1 = rowSupplier p.1
        · simp [h, hmem']
        · simp [h]
      rw [e7]
      have e8 : acc.map (fun g => addItems g (p :: ps)) = acc.map fun g => addItems g ps := by
        apply List.map_congr_left
        intro g hg
        have := hnot g hg
        have hns : ¬(rowSupplier p.1 = g.supplier) := fun he => this he.symm
        simp [addItems, List.filter_cons, hns]
      rw [e8]
      have e9 : addItems (SupplierGroup.mk (rowSnapshot p.1) (rowSupplier p.1) [p.2]) ps =
          SupplierGroup.mk (rowSnapshot p.1) (rowSupplier p.1)
            (p.2 :: (ps.filter fun q => rowSupplier q.1 = rowSupplier p.1).map Prod.snd) := by
        simp [addItems]
      rw [e9]
      simp [List.append_assoc]

end PurchasingWorkflow
namespace PurchasingWorkflow

lemma gatherGroups_suppliers :
    ∀ ps : List (Row × ItemRecord),
      (gatherGroups ps).map SupplierGroup.supplier =
        dedupFirstSeen (ps.map fun p => rowSupplier p.1) := by
  intro ps
  induction ps using gatherGroups.induct with
  | case1 => simp [gatherGroups, dedupFirstSeen]
  | case2 r it rest ih =>
    rw [gatherGroups]
    simp only [List.map_cons]
    rw [dedupFirstSeen]
    congr 1
    rw [ih]
    congr 1
    exact (@List.map_filter _ _ (fun x => decide (x ≠ rowSupplier r))
      (fun p => rowSupplier p.1) rest).symm

end PurchasingWorkflow
namespace PurchasingWorkflow

lemma pairedRows_fst : ∀ (rows : List Row) (ps : List (Row × ItemRecord)),
    pairedRows rows = .ok ps → ps.map Prod.fst = keptRows rows := by
  intro rows
  induction rows with
  | nil =>
    intro ps h
    simp [pairedRows] at h
    simp [← h, keptRows]
  | cons r rest ih =>
    intro ps h
    by_cases hk : rowKept r = true
    · simp only [pairedRows, hk, if_pos] at h
      cases hm : mkItemRecord r with
      | error e => rw [hm] at h; simp at h
      | ok it =>
        rw [hm] at h
        cases hrest : pairedRows rest with
        | error e => rw [hrest] at h; simp [Except.map] at h
        | ok ps' =>
          rw [hrest] at h
          simp [Except.map] at h
          subst h
          simp [keptRows, List.filter_cons, hk]
          exact ih ps' hrest
    · simp only [pairedRows, hk] at h
      simp only [Bool.false_eq_true, if_false] at h
      have := ih ps h
      simp [keptRows, List.filter_cons, hk]
      exact this

/-- Concrete evaluation of the recommendation at 2025-01-01 with a
missing wks_to_oos cell (shared by the grouping example). -/
lemma buildRec_jan2025 :
    buildRecommendationsForItem "2025-01-01" none =
      .ok (RecOut.mk "2025-01-01" "2025-05-07" "immediately" "within 18 weeks") := by
  have hp : parseDateDays "2025-01-01" = some 739557 := by decide
  have heff : effWksOf none = 18 := by
    norm_num [effWksOf, pyFloatOpt, TOTAL_LEAD_WEEKS, IMPORT_LEAD_WEEKS, INTERNAL_LEAD_WEEKS]
  have hfl : (⌊effWksOf none * 7⌋ : ℤ) = 126 := by rw [heff]; norm_num
  simp only [buildRecommendationsForItem, hp, hfl]
  simp only [show addDays 739557 126 = Except.ok 739683 from by decide]
  simp only [show addDays 739683 (-(18 * 7)) = Except.ok 739557 from by decide]
  rw [if_neg (by omega : ¬(739557 : Nat) < 739557)]
  norm_num
  refine ⟨by decide, by decide, ?_, ?_⟩
  · norm_num [buildTimingLabelFromWeeks]
  · norm_num [buildTimingLabelFromWeeks, pyRound]
    decide

end PurchasingWorkflow
namespace PurchasingWorkflow

lemma mkItem_demoB1 :
    mkItemRecord [("SnapshotDate", "2025-01-01"), ("SupplierName", "B"),
      ("ItemCode", "1"), ("ItemName", "w")] =
      .ok (ItemRecord.mk "1" "w" "N/A" none none none
        "2025-01-01" "2025-05-07" "immediately" "within 18 weeks") := by
  unfold mkItemRecord
  rw [show rowSnapshot [("SnapshotDate", "2025-01-01"), ("SupplierName", "B"),
        ("ItemCode", "1"), ("ItemName", "w")] = "2025-01-01" from by decide,
      show rowWksToOosRaw [("SnapshotDate", "2025-01-01"), ("SupplierName", "B"),
        ("ItemCode", "1"), ("ItemName", "w")] = none from by decide]
  simp only [buildRec_jan2025]
  decide

lemma mkItem_demoA1 :
    mkItemRecord [("SnapshotDate", "2025-01-01"), ("SupplierName", "A"),
      ("ItemCode", "2"), ("ItemName", "x")] =
      .ok (ItemRecord.mk "2" "x" "N/A" none none none
        "2025-01-01" "2025-05-07" "immediately" "within 18 weeks") := by
  unfold mkItemRecord
  rw [show rowSnapshot [("SnapshotDate", "2025-01-01"), ("SupplierName", "A"),
        ("ItemCode", "2"), ("ItemName", "x")] = "2025-01-01" from by decide,
      show rowWksToOosRaw [("SnapshotDate", "2025-01-01"), ("SupplierName", "A"),
        ("ItemCode", "2"), ("ItemName", "x")] = none from by decide]
  simp only [buildRec_jan2025]
  decide

lemma mkItem_demoB2 :
    mkItemRecord [("SnapshotDate", "2025-01-01"), ("SupplierName", "B"),
      ("ItemCode", "3"), ("ItemName", "y")] =
      .ok (ItemRecord.mk "3" "y" "N/A" none none none
        "2025-01-01" "2025-05-07" "immediately" "within 18 weeks") := by
  unfold mkItemRecord
  rw [show rowSnapshot [("SnapshotDate", "2025-01-01"), ("SupplierName", "B"),
        ("ItemCode", "3"), ("ItemName", "y")] = "2025-01-01" from by decide,
      show rowWksToOosRaw [("SnapshotDate", "2025-01-01"), ("SupplierName", "B"),
        ("ItemCode", "3"), ("ItemName", "y")] = none from by decide]
  simp only [buildRec_jan2025]
  decide

lemma mkItem_demoA2 :
    mkItemRecord [("SnapshotDate", "2025-01-01"), ("SupplierName", "A"),
      ("ItemCode", "4"), ("ItemName", "z")] =
      .ok (ItemRecord.mk "4" "z" "N/A" none none none
        "2025-01-01" "2025-05-07" "immediately" "within 18 weeks") := by
  unfold mkItemRecord
  rw [show rowSnapshot [("SnapshotDate", "2025-01-01"), ("SupplierName", "A"),
        ("ItemCode", "4"), ("ItemName", "z")] = "2025-01-01" from by decide,
      show rowWksToOosRaw [("SnapshotDate", "2025-01-01"), ("SupplierName", "A"),
        ("ItemCode", "4"), ("ItemName", "z")] = none from by decide]
  simp only [buildRec_jan2025]
  decide

lemma run_demoBABA :
    groupBySupplierAndRecommend
      [[("SnapshotDate", "2025-01-01"), ("SupplierName", "B"), ("ItemCode", "1"), ("ItemName", "w")],
       [("SnapshotDate", "2025-01-01"), ("SupplierName", "A"), ("ItemCode", "2"), ("ItemName", "x")],
       [("SnapshotDate", "2025-01-01"), ("SupplierName", "B"), ("ItemCode", "3"), ("ItemName", "y")],
       [("SnapshotDate", "2025-01-01"), ("SupplierName", "A"), ("ItemCode", "4"), ("ItemName", "z")]] =
    .ok [SupplierGroup.mk "2025-01-01" "B"
            [ItemRecord.mk "1" "w" "N/A" none none none
              "2025-01-01" "2025-05-07" "immediately" "within 18 weeks",
             ItemRecord.mk "3" "y" "N/A" none none none
              "2025-01-01" "2025-05-07" "immediately" "within 18 weeks"],
         SupplierGroup.mk "2025-01-01" "A"
            [ItemRecord.mk "2" "x" "N/A" none none none
              "2025-01-01" "2025-05-07" "immediately" "within 18 weeks",
             ItemRecord.mk "4" "z" "N/A" none none none
              "2025-01-01" "2025-05-07" "immediately" "within 18 weeks"]] := by
  unfold groupBySupplierAndRecommend
  simp only [groupGo, mkItem_demoB1, mkItem_demoA1, mkItem_demoB2, mkItem_demoA2]
  decide

end PurchasingWorkflow
namespace PurchasingWorkflow

/-- C7: grouping silently drops rows missing a mandatory field, creates
one group per distinct supplier at its first occurrence keyed by that
row's snapshot date, returns groups in first-seen supplier order with
items in original row order (`gatherGroups` is exactly that shape), and
a [B, A, B, A] input yields the group sequence [B, A] with B's items in
row order. -/
theorem C7_grouping :
    (∀ (rows : List Row) (gs : List SupplierGroup),
      groupBySupplierAndRecommend rows = .ok gs →
      gatherSpec rows = .ok gs ∧
      gs.map SupplierGroup.supplier = dedupFirstSeen ((keptRows rows).map rowSupplier)) ∧
    (groupBySupplierAndRecommend
      [[("SnapshotDate", "2025-01-01"), ("SupplierName", "B"), ("ItemCode", "1"), ("ItemName", "w")],
       [("SnapshotDate", "2025-01-01"), ("SupplierName", "A"), ("ItemCode", "2"), ("ItemName", "x")],
       [("SnapshotDate", "2025-01-01"), ("SupplierName", "B"), ("ItemCode", "3"), ("ItemName", "y")],
       [("SnapshotDate", "2025-01-01"), ("SupplierName", "A"), ("ItemCode", "4"), ("ItemName", "z")]]).map
        (fun gs => gs.map SupplierGroup.supplier) = .ok ["B", "A"] ∧
    (groupBySupplierAndRecommend
      [[("SnapshotDate", "2025-01-01"), ("SupplierName", "B"), ("ItemCode", "1"), ("ItemName", "w")],
       [("SnapshotDate", "2025-01-01"), ("SupplierName", "A"), ("ItemCode", "2"), ("ItemName", "x")],
       [("SnapshotDate", "2025-01-01"), ("SupplierName", "B"), ("ItemCode", "3"), ("ItemName", "y")],
       [("SnapshotDate", "2025-01-01"), ("SupplierName", "A"), ("ItemCode", "4"), ("ItemName", "z")]]).map
        (fun gs => gs.map fun g => g.items.map ItemRecord.item_code) =
      .ok [["1", "3"], ["2", "4"]] := by
  refine ⟨?_, ?_, ?_⟩
  · intro rows gs h
    unfold groupBySupplierAndRecommend at h
    rw [groupGo_pairs] at h
    cases hps : pairedRows rows with
    | error e => rw [hps] at h; simp [Except.map] at h
    | ok ps =>
      rw [hps] at h
      simp only [Except.map, Except.ok.injEq] at h
      have hf := foldIns_char ps []
      simp only [List.map_nil, List.any_nil, Bool.not_false, List.filter_true,
        List.nil_append] at hf
      constructor
      · unfold gatherSpec
        rw [hps]
        simp only [Except.map, Except.ok.injEq]
        rw [← h, hf]
      · rw [← h, hf]
        rw [gatherGroups_suppliers]
        rw [show ps.map (fun p => rowSupplier p.1) = (ps.map Prod.fst).map rowSupplier from by
          rw [List.map_map]; rfl]
        rw [pairedRows_fst rows ps hps]
  · rw [run_demoBABA]
    rfl
  · rw [run_demoBABA]
    rfl

/-- C7 witness: the characterization applied to the concrete
[B, A, B, A] input. -/
theorem C7_grouping_witness :
    gatherSpec
      [[("SnapshotDate", "2025-01-01"), ("SupplierName", "B"), ("ItemCode", "1"), ("ItemName", "w")],
       [("SnapshotDate", "2025-01-01"), ("SupplierName", "A"), ("ItemCode", "2"), ("ItemName", "x")],
       [("SnapshotDate", "2025-01-01"), ("SupplierName", "B"), ("ItemCode", "3"), ("ItemName", "y")],
       [("SnapshotDate", "2025-01-01"), ("SupplierName", "A"), ("ItemCode", "4"), ("ItemName", "z")]] =
    .ok [SupplierGroup.mk "2025-01-01" "B"
            [ItemRecord.mk "1" "w" "N/A" none none none
              "2025-01-01" "2025-05-07" "immediately" "within 18 weeks",
             ItemRecord.mk "3" "y" "N/A" none none none
              "2025-01-01" "2025-05-07" "immediately" "within 18 weeks"],
         SupplierGroup.mk "2025-01-01" "A"
            [ItemRecord.mk "2" "x" "N/A" none none none
              "2025-01-01" "2025-05-07" "immediately" "within 18 weeks",
             ItemRecord.mk "4" "z" "N/A" none none none
              "2025-01-01" "2025-05-07" "immediately" "within 18 weeks"]] :=
  (C7_grouping.1 _ _ run_demoBABA).1

end PurchasingWorkflow
namespace PurchasingWorkflow

lemma consumeStream_safety (queue : List ProgressEvent) (sched : Nat → Nat × Bool) :
    ∀ (fuel i c : Nat) (out : List ProgressEvent),
      consumeStream queue sched fuel i c = some out →
      out.countP isTerminal ≤ 1 ∧ ∀ e ∈ out.dropLast, isTerminal e = false := by
  intro fuel
  induction fuel with
  | zero => intro i c out h; simp [consumeStream] at h
  | succ fuel ih =>
    intro i c out h
    rw [consumeStream] at h
    by_cases hlt : c < min (sched i).1 queue.length
    · rw [if_pos hlt] at h
      by_cases hterm : isTerminal (queue.getD c ⟨"", []⟩) = true
      · rw [if_pos hterm] at h
        simp only [Option.some.injEq] at h
        subst h
        constructor
        · simp only [List.countP_cons, List.countP_nil]
          split_ifs <;> omega
        · simp
      · rw [if_neg hterm] at h
        cases hrec : consumeStream queue sched fuel (i + 1) (c + 1) with
        | none => rw [hrec] at h; simp at h
        | some out2 =>
          rw [hrec] at h
          simp only [Option.some.injEq] at h
          subst h
          obtain ⟨ih1, ih2⟩ := ih (i + 1) (c + 1) out2 hrec
          constructor
          · simp only [List.countP_cons]
            rw [if_neg hterm]
            omega
          · cases out2 with
            | nil => simp
            | cons x xs =>
              rw [List.dropLast_cons_of_ne_nil (by simp)]
              intro e he
              rcases List.mem_cons.mp he with rfl | he2
              · simpa using hterm
              · exact ih2 e he2
    · rw [if_neg hlt] at h
      by_cases hdone : (sched i).2 = true
      · rw [if_pos hdone] at h
        simp only [Option.some.injEq] at h
        subst h
        simp
      · rw [if_neg hdone] at h
        exact ih (i + 1) c out h

lemma consumeStream_sync (pre : List ProgressEvent) (last : ProgressEvent)
    (sched : Nat → Nat × Bool)
    (hpre : ∀ e ∈ pre, isTerminal e = false)
    (hsync : ∀ i, (sched i).2 = true → (pre ++ [last]).length ≤ (sched i).1) :
    ∀ (fuel i c : Nat) (out : List ProgressEvent),
      consumeStream (pre ++ [last]) sched fuel i c = some out →
      out = (pre ++ [last]).drop c := by
  intro fuel
  induction fuel with
  | zero => intro i c out h; simp [consumeStream] at h
  | succ fuel ih =>
    intro i c out h
    rw [consumeStream] at h
    by_cases hlt : c < min (sched i).1 (pre ++ [last]).length
    · rw [if_pos hlt] at h
      have hc : c < (pre ++ [last]).length := lt_of_lt_of_le hlt (min_le_right _ _)
      have hgd : (pre ++ [last]).getD c ⟨"", []⟩ = (pre ++ [last]).get ⟨c, hc⟩ := by
        rw [List.getD_eq_getElem _ _ hc]
        rfl
      by_cases hterm : isTerminal ((pre ++ [last]).getD c ⟨"", []⟩) = true
      · rw [if_pos hterm] at h
        simp only [Option.some.injEq] at h
        subst h
        -- a terminal event can only be the final one
        have hcpre : ¬ c < pre.length := by
          intro hcl
          have : (pre ++ [last])[c] = pre[c] := List.getElem_append_left hcl
          rw [hgd] at hterm
          simp only [List.get_eq_getElem, this] at hterm
          exact absurd hterm (by simp [hpre pre[c] (List.getElem_mem hcl)])
        have hceq : c = pre.length := by
          simp only [List.length_append, List.length_singleton] at hc
          omega
        subst hceq
        rw [List.drop_left]
        congr 1
        rw [hgd]
        simp only [List.get_eq_getElem]
        rw [List.getElem_append_right (le_refl _)]
        simp
      · rw [if_neg hterm] at h
        cases hrec : consumeStream (pre ++ [last]) sched fuel (i + 1) (c + 1) with
        | none => rw [hrec] at h; simp at h
        | some out2 =>
          rw [hrec] at h
          simp only [Option.some.injEq] at h
          subst h
          rw [ih (i + 1) (c + 1) out2 hrec]
          rw [List.drop_eq_getElem_cons hc]
          congr 1
    · rw [if_neg hlt] at h
      by_cases hdone : (sched i).2 = true
      · rw [if_pos hdone] at h
        simp only [Option.some.injEq] at h
        subst h
        have := hsync i hdone
        have hge : (pre ++ [last]).length ≤ c := by
          rcases Nat.lt_or_ge c (pre ++ [last]).length with hl | hg
          · exact absurd (lt_min (lt_of_lt_of_le hl this) hl) hlt
          · exact hg
        rw [List.drop_eq_nil_of_le hge]
      · rw [if_neg hdone] at h
        exact ih (i + 1) c out h

end PurchasingWorkflow

namespace PurchasingWorkflow

/-- C8 counterexample: a raised run enqueues `csv_parsing` then the
`error` terminal, but a schedule in which the first poll times out empty
just before the producer enqueues both events and finishes makes the
consumer exit via the empty-and-done branch: the stream yields no events
at all — no terminal `error` event is delivered. -/
theorem C8_counterexample :
    queueHistory [⟨"csv_parsing", []⟩] true "boom" =
      [⟨"csv_parsing", []⟩, ⟨"error", [("error", "boom")]⟩] ∧
    streamPipelineEvents (queueHistory [⟨"csv_parsing", []⟩] true "boom")
      (fun _ => (0, true)) 5 = some [] ∧
    List.countP isTerminal ([] : List ProgressEvent) = 0 :=
  ⟨by decide, by decide, by decide⟩

/-- C8 (amended): any delivered stream has at most one terminal event and
no event after a terminal one; and provided every poll that observes
`task.done() = true` also observes the fully flushed queue (no enqueue
races between the empty poll and the done check), the whole queue is
delivered, ending in exactly one terminal event — the `error` event for a
raised run. -/
theorem C8_stream_terminal :
    (∀ (queue : List ProgressEvent) (sched : Nat → Nat × Bool) (fuel : Nat)
        (out : List ProgressEvent),
      streamPipelineEvents queue sched fuel = some out →
      out.countP isTerminal ≤ 1 ∧ ∀ e ∈ out.dropLast, isTerminal e = false) ∧
    (∀ (pre : List ProgressEvent) (last : ProgressEvent) (sched : Nat → Nat × Bool)
        (fuel : Nat) (out : List ProgressEvent),
      (∀ e ∈ pre, isTerminal e = false) → isTerminal last = true →
      (∀ i, (sched i).2 = true → (pre ++ [last]).length ≤ (sched i).1) →
      streamPipelineEvents (pre ++ [last]) sched fuel = some out →
      out = pre ++ [last] ∧ out.countP isTerminal = 1 ∧ out.getLast? = some last) ∧
    (∀ (body : List ProgressEvent) (msg : String),
      queueHistory body true msg = body ++ [⟨"error", [("error", msg)]⟩] ∧
      isTerminal ⟨"error", [("error", msg)]⟩ = true) := by
  refine ⟨?_, ?_, ?_⟩
  · intro queue sched fuel out h
    exact consumeStream_safety queue sched fuel 0 0 out h
  · intro pre last sched fuel out hpre hlast hsync h
    have hout := consumeStream_sync pre last sched hpre hsync fuel 0 0 out h
    simp only [List.drop_zero] at hout
    subst hout
    refine ⟨rfl, ?_, ?_⟩
    · rw [List.countP_append]
      have h1 : pre.countP isTerminal = 0 := by
        rw [List.countP_eq_zero]
        intro e he
        simp [hpre e he]
      rw [h1]
      simp [List.countP_cons, hlast]
    · simp
  · intro body msg
    exact ⟨rfl, by rfl⟩

/-- C8 witness: a raised run delivered under a race-free schedule yields
the partial progress followed by exactly one terminal error event. -/
theorem C8_stream_terminal_witness :
    streamPipelineEvents
        (([⟨"csv_parsing", []⟩] ++ [⟨"error", [("error", "boom")]⟩] : List ProgressEvent))
        (fun _ => (2, true)) 9 =
      some (([⟨"csv_parsing", []⟩] ++ [⟨"error", [("error", "boom")]⟩] : List ProgressEvent)) ∧
    (([⟨"csv_parsing", []⟩] ++ [⟨"error", [("error", "boom")]⟩] : List ProgressEvent)).countP
      isTerminal = 1 := by
  have h := C8_stream_terminal.2.1 [⟨"csv_parsing", []⟩] ⟨"error", [("error", "boom")]⟩
    (fun _ => (2, true)) 9
    (([⟨"csv_parsing", []⟩] ++ [⟨"error", [("error", "boom")]⟩] : List ProgressEvent))
    (by decide) (by decide) (by intro i _; simp) (by decide)
  exact ⟨by decide, h.2.1⟩

end PurchasingWorkflow
namespace PurchasingWorkflow

lemma groupLoopBody_steps (stubs : PipelineStubs) (g : SupplierGroup) :
    stepsOf (groupLoopBody stubs true true g).1 =
      ["analysis", "generating_file", "file_ready", "pr", "generating_file", "file_ready",
       "email", "generating_file", "file_ready"] := by
  simp [groupLoopBody, artifactBlock, stepsOf]

/-- C9: in streaming mode (`in_memory` is then always true) the pipeline
pushes `analysis`, `pr`, `email` and the `generating_file`/`file_ready`
pairs for each group, but the `report` step is guarded by
`not in_memory` and is never pushed — contradicting the endpoint's own
step list. -/
theorem C9_report_event_missing :
    (∀ (stubs : PipelineStubs) (g : SupplierGroup),
      stepsOf (groupLoopBody stubs true true g).1 =
        ["analysis", "generating_file", "file_ready", "pr", "generating_file", "file_ready",
         "email", "generating_file", "file_ready"]) ∧
    (∀ (stubs : PipelineStubs) (rows : List Row) (fn : Option String)
        (resp : RunPipelineResponse) (evs : List ProgressEvent),
      runPipeline stubs rows fn true false = (.ok resp, evs) →
      stepsOf evs = ["csv_parsing", "item_grouping", "item_grouping_done"] ++
        (resp.groups.map fun g => stepsOf (groupLoopBody stubs true true g).1).flatten ++
        ["complete"] ∧
      "report" ∉ stepsOf evs) := by
  refine ⟨groupLoopBody_steps, ?_⟩
  intro stubs rows fn resp evs h
  simp only [runPipeline, Bool.true_or, if_true] at h
  by_cases h0 : parseCsvRows rows fn = []
  · rw [if_pos h0] at h
    simp [Prod.mk.injEq] at h
  · rw [if_neg h0] at h
    cases hg : groupBySupplierAndRecommend (parseCsvRows rows fn) with
    | error e =>
      simp only [hg] at h
      simp [Prod.mk.injEq] at h
    | ok groups =>
      simp only [hg] at h
      by_cases hge : groups = []
      · rw [if_pos hge] at h
        simp [Prod.mk.injEq] at h
      · rw [if_neg hge] at h
        simp only [Prod.mk.injEq, Except.ok.injEq] at h
        obtain ⟨hresp, hevs⟩ := h
        have hgroups : resp.groups = groups := by rw [← hresp]
        have hsteps : stepsOf evs = ["csv_parsing", "item_grouping", "item_grouping_done"] ++
            (resp.groups.map fun g => stepsOf (groupLoopBody stubs true true g).1).flatten ++
            ["complete"] := by
          rw [← hevs]
          simp only [stepsOf, List.map_append, List.map_flatten, List.map_map, hgroups]
          rfl
        refine ⟨hsteps, ?_⟩
        rw [hsteps]
        intro hmem
        rw [List.mem_append, List.mem_append] at hmem
        rcases hmem with (h1 | h2) | h3
        · simp at h1
        · rw [List.mem_flatten] at h2
          obtain ⟨l, hl, hrep⟩ := h2
          rw [List.mem_map] at hl
          obtain ⟨g, -, rfl⟩ := hl
          rw [groupLoopBody_steps] at hrep
          simp at hrep
        · simp at h3

end PurchasingWorkflow
namespace PurchasingWorkflow

/-- A one-row CSV input for the concrete streaming run. -/
def row0c9 : Row :=
  [("snapshot_date", "2025-01-01"), ("SupplierName", "B"), ("ItemCode", "1"), ("ItemName", "w")]

/-- Concrete collaborators for the streaming run: constant agents and
identity converters. -/
def stubs0c9 : PipelineStubs :=
  { runAnalysis := fun _ => .obj []
    runReportDoc := fun _ => "R"
    runPrDraft := fun _ _ _ _ => .obj []
    runPrDoc := fun _ => "P"
    runEmailDraft := fun _ _ _ _ _ => "E"
    mdToDocx := fun s => s
    b64 := fun s => s
    sanitize := fun s => s
    saveDocx := fun _ _ s => s }

def item0c9 : ItemRecord :=
  ItemRecord.mk "1" "w" "N/A" none none none
    "2025-01-01" "2025-05-07" "immediately" "within 18 weeks"

def resp0c9 : RunPipelineResponse :=
  { groups := [SupplierGroup.mk "2025-01-01" "B" [item0c9]]
    reports := [ArtifactDoc.mk "2025-01-01" "B" "R" "analysis_2025-01-01_B.docx" "" "R"]
    requests := [ArtifactDoc.mk "2025-01-01" "B" "P" "pr_2025-01-01_B.docx" "" "P"]
    emails := [ArtifactDoc.mk "2025-01-01" "B" "E" "email_draft_2025-01-01_B.docx" "" "E"] }

def evs0c9 : List ProgressEvent :=
  [⟨"csv_parsing", []⟩, ⟨"item_grouping", []⟩, ⟨"item_grouping_done", [("count", "1")]⟩,
   ⟨"analysis", [("supplier", "B")]⟩,
   ⟨"generating_file", [("filename", "analysis_2025-01-01_B.docx")]⟩,
   ⟨"file_ready", [("filename", "analysis_2025-01-01_B.docx"), ("content_base64", "R")]⟩,
   ⟨"pr", [("supplier", "B")]⟩,
   ⟨"generating_file", [("filename", "pr_2025-01-01_B.docx")]⟩,
   ⟨"file_ready", [("filename", "pr_2025-01-01_B.docx"), ("content_base64", "P")]⟩,
   ⟨"email", [("supplier", "B")]⟩,
   ⟨"generating_file", [("filename", "email_draft_2025-01-01_B.docx")]⟩,
   ⟨"file_ready", [("filename", "email_draft_2025-01-01_B.docx"), ("content_base64", "E")]⟩,
   ⟨"complete", [("result", "run result")]⟩]

lemma mkItem_c9 :
    mkItemRecord row0c9 = .ok item0c9 := by
  unfold mkItemRecord
  rw [show rowSnapshot row0c9 = "2025-01-01" from by decide,
      show rowWksToOosRaw row0c9 = none from by decide]
  simp only [buildRec_jan2025]
  decide

lemma group_c9 :
    groupBySupplierAndRecommend [row0c9] =
      .ok [SupplierGroup.mk "2025-01-01" "B" [item0c9]] := by
  unfold groupBySupplierAndRecommend
  simp only [groupGo, mkItem_c9]
  decide

lemma run_c9 :
    runPipeline stubs0c9 [row0c9] none true false = (.ok resp0c9, evs0c9) := by
  simp only [runPipeline]
  rw [show parseCsvRows [row0c9] none = [row0c9] from by decide]
  simp only [group_c9]
  decide

/-- Witness for C9 at a concrete one-row streaming run. -/
theorem C9_report_event_missing_witness :
    stepsOf (runPipeline stubs0c9 [row0c9] none true false).2 =
      ["csv_parsing", "item_grouping", "item_grouping_done",
       "analysis", "generating_file", "file_ready", "pr", "generating_file", "file_ready",
       "email", "generating_file", "file_ready", "complete"] ∧
    "report" ∉ stepsOf (runPipeline stubs0c9 [row0c9] none true false).2 := by
  have h := C9_report_event_missing.2 stubs0c9 [row0c9] none resp0c9 evs0c9 run_c9
  rw [run_c9]
  exact ⟨h.1.trans (by decide), h.2⟩

end PurchasingWorkflow
